import Mathlib

/-!
KDLC kinematics plugin: cached, time-bounded IK search.

A shallow embedding of `src/src/kdlc_kinematics_plugin.cpp`.

* `double` values are exact rationals (`ℚ`); rounding, infinities and NaN are outside the model.
* The collaborators whose code is not part of the file (the pose cache, the KDL chain
  solvers, the robot-state sampler and joint distance, the wall clock, the message
  conversions) are the fields of `Env`; every theorem quantifies over all of them.
* Calls to the collaborators that the properties talk about (inverse solver, callback,
  cache insert, forward solver) are recorded in ghost call logs.
* The `while(1)` retry loop is bounded by a fuel argument; `none` means the fuel ran out
  before the loop left through one of its `break`s.
-/

namespace kdlc_kinematics_plugin

/-! ## Data model -/

/-- A `KDL::JntArray` / `std::vector<double>`. -/
abbrev JntArray := List ℚ

/-- The message `geometry_msgs::Pose`: a position and an orientation quaternion. -/
structure Pose where
  position : ℚ × ℚ × ℚ
  orientation : ℚ × ℚ × ℚ × ℚ
  deriving DecidableEq, Repr

/-- A `KDL::Frame`: rotation matrix entries and translation vector. -/
structure Frame where
  M : List ℚ
  p : List ℚ
  deriving DecidableEq, Repr

/-- The result type of the pose cache, `simple_cache::results_t`. The plugin compares a
lookup result only with `SUCCESS` and `NOSOLUTION`; `MISS` stands for every other value. -/
inductive results_t where
  | SUCCESS
  | NOSOLUTION
  | MISS
  deriving DecidableEq, Repr

/-- Value `moveit_msgs::MoveItErrorCodes::SUCCESS`. -/
def SUCCESS : Int := 1

/-- Value `moveit_msgs::MoveItErrorCodes::TIMED_OUT`. -/
def TIMED_OUT : Int := -6

/-- Value `moveit_msgs::MoveItErrorCodes::NO_IK_SOLUTION`. -/
def NO_IK_SOLUTION : Int := -31

/-- The caller's optional validation callback `IKCallbackFn`. An empty `boost::function`
is `none`. The callback reads the pose and the solution and may rewrite the error code;
the first argument is the number of the loop iteration that calls it, so that a callback
with internal state is covered as well. -/
abbrev IKCallbackFn := Option (Nat → Pose → List ℚ → Int → Int)

/-- The collaborators of the plugin that live outside the source file. -/
structure Env where
  /-- The call `ros::WallTime::now()`, in seconds: `now 0` is the reading taken on entry of
  `searchPositionIK`, `now k` the reading taken by the deadline check of iteration `k`. -/
  now : Nat → ℚ
  /-- The call `cache_->get(ik_pose, seed)`: the lookup result and the seed vector as the
  call leaves it (it is passed by non-const reference). -/
  cache_get : Pose → List ℚ → results_t × List ℚ
  /-- The conversion `tf::poseMsgToKDL`. -/
  poseMsgToKDL : Pose → Frame
  /-- The conversion `tf::poseKDLToMsg`. -/
  poseKDLToMsg : Frame → Pose
  /-- The call `ik_solver_pos_->CartToJnt(q_init, p_in, q_out)`: return code and the
  contents of `q_out` afterwards. -/
  CartToJnt : JntArray → Frame → JntArray → Int × JntArray
  /-- The call `fk_solver_->JntToCart(q_in, p_out, segmentNr)`: return code and the
  contents of `p_out` afterwards. -/
  JntToCart : JntArray → Frame → Int → Int × Frame
  /-- Variable values of the joint state group after `setToRandomValues()`, for the draw
  made in iteration `k`. -/
  randomValues : Nat → List ℚ
  /-- Variable values of the joint state group after `setToRandomValuesNearBy(near, limits)`,
  for the draw made in iteration `k`. -/
  randomValuesNearBy : Nat → List ℚ → List ℚ → List ℚ
  /-- Size of `joint_state_group->getJointStateVector()`. -/
  numJointStates : Nat
  /-- The value `joint_state_vector[i]->distance(joint_state_vector_2[i])` when the first
  group holds the variable values `a` and the second group the values `b`. -/
  distance : Nat → List ℚ → List ℚ → ℚ

/-- The members of `KDLCKinematicsPlugin` that the modelled functions read or write. -/
structure KDLCKinematicsPlugin where
  active_ : Bool
  dimension_ : Nat
  /-- Names of the segments of `kdl_chain_`, in chain order. -/
  kdl_chain_ : List String
  jnt_seed_state_ : JntArray
  jnt_pos_in_ : JntArray
  jnt_pos_out_ : JntArray

/-- One recorded call of `CartToJnt`. -/
structure SolverCall where
  q_init : JntArray
  p_in : Frame
  ik_valid : Int
  q_out : JntArray
  deriving DecidableEq, Repr

/-- One recorded call of `cache_->insert`: `no_solution = some true` is the call
`insert(ik_pose, solution, true)`, `none` is the two-argument call `insert(ik_pose, solution)`. -/
structure CacheInsert where
  pose : Pose
  solution : List ℚ
  no_solution : Option Bool
  deriving DecidableEq, Repr

/-! ## Small helpers for the array loops -/

/-- The loop `for (i = 0; i < n; ++i) dst[i] = src[i];`: the first `n` entries of `dst` are
overwritten by those of `src`, the others are kept. -/
def copyFirst (n : Nat) (src dst : List ℚ) : List ℚ :=
  (List.range dst.length).map (fun i => if i < n then src.getD i 0 else dst.getD i 0)

/-- The vector of length `n` built by `for (i = 0; i < n; ++i) w[i] = v(i);`. -/
def firstN (n : Nat) (v : List ℚ) : List ℚ :=
  (List.range n).map (fun i => v.getD i 0)

/-- The call `v.resize(n)` of `std::vector<double>`: truncate, or pad with zeros. -/
def resize (v : List ℚ) (n : Nat) : List ℚ :=
  v.take n ++ List.replicate (n - v.length) 0

/-- Conversion of a `double` to `int`: truncation toward zero. -/
def toInt (q : ℚ) : Int := Int.tdiv q.num q.den

/-- The call `std::accumulate(v.begin(), v.end(), 0)`: the initial value `0` is an `int`, so
the accumulator is an `int` and every partial sum `acc + x` is converted back to `int`. -/
def accumulate (v : List ℚ) : Int :=
  v.foldl (fun acc x => toInt ((acc : ℚ) + x)) 0

/-! ## The member functions -/

/-- Source function `KDLCKinematicsPlugin::getRandomConfiguration(jnt_array)`, for the draw
of iteration `k`. -/
def getRandomConfiguration (env : Env) (dimension_ : Nat) (k : Nat)
    (jnt_array : JntArray) : JntArray :=
  let jnt_array_vector := env.randomValues k
  copyFirst dimension_ jnt_array_vector jnt_array

/-- Source function
`KDLCKinematicsPlugin::getRandomConfiguration(seed_state, consistency_limits, jnt_array)`,
for the draw of iteration `k`. -/
def getRandomConfigurationNear (env : Env) (dimension_ : Nat) (k : Nat)
    (seed_state : JntArray) (consistency_limits : List ℚ) (jnt_array : JntArray) : JntArray :=
  let near := firstN dimension_ seed_state
  let values := env.randomValuesNearBy k near consistency_limits
  copyFirst dimension_ values jnt_array

/-- Source function `KDLCKinematicsPlugin::checkConsistency`. -/
def checkConsistency (env : Env) (dimension_ : Nat) (seed_state : JntArray)
    (consistency_limits : List ℚ) (solution : JntArray) : Bool :=
  let seed_state_vector := copyFirst dimension_ seed_state (List.replicate dimension_ 0)
  let solution_vector := copyFirst dimension_ solution (List.replicate dimension_ 0)
  (List.range env.numJointStates).all (fun i =>
    !decide (env.distance i seed_state_vector solution_vector > consistency_limits.getD i 0))

/-- The scan of `getKDLSegmentIndex` from position `i` over the remaining segment names. -/
def getKDLSegmentIndexFrom (name : String) : List String → Int → Int
  | [], _ => -1
  | s :: rest, i => if s = name then i + 1 else getKDLSegmentIndexFrom name rest (i + 1)

/-- Source function `KDLCKinematicsPlugin::getKDLSegmentIndex`. -/
def getKDLSegmentIndex (self : KDLCKinematicsPlugin) (name : String) : Int :=
  getKDLSegmentIndexFrom name self.kdl_chain_ 0

/-- Source function `KDLCKinematicsPlugin::timedOut`, for the clock reading number `k`;
`start_time` is the reading `now 0`. -/
def timedOut (env : Env) (k : Nat) (duration : ℚ) : Bool :=
  decide (env.now k - env.now 0 ≥ duration)

/-! ## The inverse-kinematics query -/

/-- The variables that `searchPositionIK` reads and writes: the member arrays, the output
parameters `solution` and `error_code`, the loop counter, and the ghost call logs. -/
structure IKState where
  jnt_seed_state_ : JntArray
  jnt_pos_in_ : JntArray
  jnt_pos_out_ : JntArray
  solution : List ℚ
  error_code : Int
  counter : Nat
  /-- Ghost: the calls of `CartToJnt`, oldest first. -/
  solver_calls : List SolverCall
  /-- Ghost: the calls of the callback (pose and solution passed), oldest first. -/
  callback_calls : List (Pose × List ℚ)
  /-- Ghost: the calls of `cache_->insert`, oldest first. -/
  cache_inserts : List CacheInsert
  deriving DecidableEq, Repr

/-- How one pass through the body of the `while(1)` loop ends. -/
inductive Step where
  /-- The body reached a `break` with the given value of `result`. -/
  | brk (result : Bool) (s : IKState)
  /-- The body reached a `continue` or its end: another pass follows. -/
  | cont (s : IKState)

/-- The tail of the loop body, from the log line "Found IK solution" on: copy the candidate into
`solution`, run the callback (or set `SUCCESS`), and break when the error code is `SUCCESS`. -/
def acceptCandidate (dimension_ : Nat) (ik_pose : Pose) (solution_callback : IKCallbackFn)
    (s : IKState) : Step :=
  let solution := copyFirst dimension_ s.jnt_pos_out_ s.solution
  let s1 : IKState :=
    match solution_callback with
    | some cb =>
      { s with solution := solution
               error_code := cb s.counter ik_pose solution s.error_code
               callback_calls := s.callback_calls ++ [(ik_pose, solution)] }
    | none => { s with solution := solution, error_code := SUCCESS }
  if s1.error_code = SUCCESS then Step.brk true s1 else Step.cont s1

/-- One pass through the body of the `while(1)` loop of `searchPositionIK`. -/
def iteration (env : Env) (dimension_ : Nat) (ik_pose : Pose) (timeout : ℚ)
    (solution_callback : IKCallbackFn) (consistency_limits : List ℚ) (s : IKState) : Step :=
  let counter := s.counter + 1
  if timedOut env counter timeout then
    Step.brk false { s with counter := counter, error_code := TIMED_OUT }
  else
    let pose_desired := env.poseMsgToKDL ik_pose
    let r := env.CartToJnt s.jnt_pos_in_ pose_desired s.jnt_pos_out_
    let ik_valid := r.1
    let s1 : IKState :=
      { s with counter := counter
               jnt_pos_out_ := r.2
               solver_calls := s.solver_calls ++ [⟨s.jnt_pos_in_, pose_desired, ik_valid, r.2⟩] }
    if !consistency_limits.isEmpty then
      let s2 : IKState :=
        { s1 with jnt_pos_in_ := getRandomConfigurationNear env dimension_ counter
                    s1.jnt_seed_state_ consistency_limits s1.jnt_pos_in_ }
      if ik_valid < 0 ||
          !checkConsistency env dimension_ s2.jnt_seed_state_ consistency_limits s2.jnt_pos_out_ then
        Step.cont s2
      else
        acceptCandidate dimension_ ik_pose solution_callback s2
    else
      let s2 : IKState :=
        { s1 with jnt_pos_in_ := getRandomConfiguration env dimension_ counter s1.jnt_pos_in_ }
      if ik_valid < 0 then
        Step.cont s2
      else
        acceptCandidate dimension_ ik_pose solution_callback s2

/-- The `while(1)` loop of `searchPositionIK`, run for at most `fuel` passes: the value of
`result` and the state at the `break`, or `none` when no `break` was reached. -/
def retryLoop (env : Env) (dimension_ : Nat) (ik_pose : Pose) (timeout : ℚ)
    (solution_callback : IKCallbackFn) (consistency_limits : List ℚ) :
    Nat → IKState → Option (Bool × IKState)
  | 0, _ => none
  | fuel + 1, s =>
    match iteration env dimension_ ik_pose timeout solution_callback consistency_limits s with
    | Step.brk result s1 => some (result, s1)
    | Step.cont s1 =>
      retryLoop env dimension_ ik_pose timeout solution_callback consistency_limits fuel s1

/-- The timeout that the retry loop works with: the assignment `timeout = timeout * 0.00001`
is made exactly when the cache lookup returned `SUCCESS`. -/
def effectiveTimeout (cache_result : results_t) (timeout : ℚ) : ℚ :=
  if cache_result = results_t.SUCCESS then timeout * (1 / 100000) else timeout

/-- The block after the loop ("if the cache did not have an entry, add it"). -/
def cacheWrite (cache_result : results_t) (ik_pose : Pose) (result : Bool) (s : IKState) :
    IKState :=
  if cache_result ≠ results_t.SUCCESS ∧ cache_result ≠ results_t.NOSOLUTION then
    if !result then
      let sum := accumulate s.solution
      if sum = 0 then
        { s with cache_inserts := s.cache_inserts ++ [⟨ik_pose, s.solution, some true⟩] }
      else
        { s with cache_inserts := s.cache_inserts ++ [⟨ik_pose, s.solution, none⟩] }
    else s
  else s

/-- The part of `searchPositionIK` from the `while(1)` loop to the final `return result;`,
started in loop state `s`: the loop, then the cache block, then the return. -/
def loopThenCacheWrite (env : Env) (dimension_ : Nat) (ik_pose : Pose) (timeout : ℚ)
    (solution_callback : IKCallbackFn) (consistency_limits : List ℚ) (cache_result : results_t)
    (fuel : Nat) (s : IKState) : Option (Bool × IKState) :=
  match retryLoop env dimension_ ik_pose timeout solution_callback consistency_limits fuel s with
  | none => none
  | some (result, s2) => some (result, cacheWrite cache_result ik_pose result s2)

/-- The state in which `searchPositionIK` starts: the members of the plugin, the caller's
`solution` and `error_code`, and empty call logs. -/
def entryState (self : KDLCKinematicsPlugin) (solution : List ℚ) (error_code : Int) : IKState :=
  { jnt_seed_state_ := self.jnt_seed_state_
    jnt_pos_in_ := self.jnt_pos_in_
    jnt_pos_out_ := self.jnt_pos_out_
    solution := solution
    error_code := error_code
    counter := 0
    solver_calls := []
    callback_calls := []
    cache_inserts := [] }

/-- Source function `KDLCKinematicsPlugin::searchPositionIK` (the overload with all seven
parameters): the returned `bool` and the final state, or `none` when the retry loop did not
leave within `fuel` passes. -/
def searchPositionIK (env : Env) (self : KDLCKinematicsPlugin) (fuel : Nat) (ik_pose : Pose)
    (ik_seed_state : List ℚ) (timeout : ℚ) (solution : List ℚ)
    (solution_callback : IKCallbackFn) (error_code : Int) (consistency_limits : List ℚ) :
    Option (Bool × IKState) :=
  let s0 := entryState self solution error_code
  if !self.active_ then
    some (false, { s0 with error_code := NO_IK_SOLUTION })
  else
    let got := env.cache_get ik_pose ik_seed_state
    let cache_result := got.1
    let ik_seed_state_new := got.2
    if cache_result = results_t.NOSOLUTION then
      some (false, { s0 with error_code := NO_IK_SOLUTION })
    else
      let timeout := effectiveTimeout cache_result timeout
      if ik_seed_state_new.length ≠ self.dimension_ then
        some (false, { s0 with error_code := NO_IK_SOLUTION })
      else if !consistency_limits.isEmpty ∧ consistency_limits.length ≠ self.dimension_ then
        some (false, { s0 with error_code := NO_IK_SOLUTION })
      else
        let jnt_seed_state_ := copyFirst self.dimension_ ik_seed_state_new s0.jnt_seed_state_
        let s1 : IKState :=
          { s0 with solution := resize solution self.dimension_
                    jnt_seed_state_ := jnt_seed_state_
                    jnt_pos_in_ := jnt_seed_state_ }
        loopThenCacheWrite env self.dimension_ ik_pose timeout solution_callback
          consistency_limits cache_result fuel s1

/-! ## The forward-kinematics query -/

/-- The variables of the link loop of `getPositionFK`. -/
structure FKState where
  p_out : Frame
  poses : List Pose
  valid : Bool
  /-- Ghost: the segment numbers passed to `JntToCart`, oldest first. -/
  fk_calls : List Int

/-- A default-constructed `KDL::Frame`: identity rotation, zero translation. -/
def Frame.Identity : Frame := ⟨[1, 0, 0, 0, 1, 0, 0, 0, 1], [0, 0, 0]⟩

/-- The segment number that `getPositionFK` asks for at index `i`. -/
def segmentOf (self : KDLCKinematicsPlugin) (link_names : List String) (i : Nat) : Int :=
  getKDLSegmentIndex self (link_names.getD i "")

/-- The body of the link loop of `getPositionFK` at index `i`. -/
def fkIteration (env : Env) (self : KDLCKinematicsPlugin) (link_names : List String)
    (jnt_pos_in_ : JntArray) (s : FKState) (i : Nat) : FKState :=
  let seg := segmentOf self link_names i
  let r := env.JntToCart jnt_pos_in_ s.p_out seg
  if r.1 ≥ 0 then
    { p_out := r.2
      poses := s.poses.set i (env.poseKDLToMsg r.2)
      valid := s.valid
      fk_calls := s.fk_calls ++ [seg] }
  else
    { p_out := r.2
      poses := s.poses
      valid := false
      fk_calls := s.fk_calls ++ [seg] }

/-- The first `k` passes of the link loop of `getPositionFK`. -/
def fkLoop (env : Env) (self : KDLCKinematicsPlugin) (link_names : List String)
    (jnt_pos_in_ : JntArray) (poses : List Pose) (k : Nat) : FKState :=
  (List.range k).foldl (fkIteration env self link_names jnt_pos_in_)
    { p_out := Frame.Identity, poses := poses, valid := true, fk_calls := [] }

/-- What `getPositionFK` leaves behind: the returned `bool`, the `poses` vector, the member
`jnt_pos_in_` and the ghost log of forward-solver calls. -/
structure FKResult where
  ret : Bool
  poses : List Pose
  jnt_pos_in_ : JntArray
  fk_calls : List Int

/-- Source function `KDLCKinematicsPlugin::getPositionFK`. -/
def getPositionFK (env : Env) (self : KDLCKinematicsPlugin) (link_names : List String)
    (joint_angles : List ℚ) (poses : List Pose) : FKResult :=
  if !self.active_ then
    ⟨false, poses, self.jnt_pos_in_, []⟩
  else if poses.length ≠ link_names.length then
    ⟨false, poses, self.jnt_pos_in_, []⟩
  else if joint_angles.length ≠ self.dimension_ then
    ⟨false, poses, self.jnt_pos_in_, []⟩
  else
    let jnt_pos_in_ := copyFirst self.dimension_ joint_angles self.jnt_pos_in_
    let s := fkLoop env self link_names jnt_pos_in_ poses poses.length
    ⟨s.valid, s.poses, jnt_pos_in_, s.fk_calls⟩

/-- The contents of the local variable `p_out` of `getPositionFK` before the forward-solver
call for index `i`: default-constructed at first, then as the call before left it. -/
def fkFrameBefore (env : Env) (self : KDLCKinematicsPlugin) (link_names : List String)
    (jnt_pos_in_ : JntArray) : Nat → Frame
  | 0 => Frame.Identity
  | i + 1 =>
    (env.JntToCart jnt_pos_in_ (fkFrameBefore env self link_names jnt_pos_in_ i)
      (segmentOf self link_names i)).2

/-- The result of the forward-solver call that `getPositionFK` makes for index `i`. -/
def fkCall (env : Env) (self : KDLCKinematicsPlugin) (link_names : List String)
    (jnt_pos_in_ : JntArray) (i : Nat) : Int × Frame :=
  env.JntToCart jnt_pos_in_ (fkFrameBefore env self link_names jnt_pos_in_ i)
    (segmentOf self link_names i)

/-- The state carried by a step result. -/
def Step.state : Step → IKState
  | Step.brk _ s => s
  | Step.cont s => s

/-- The contents of `jnt_pos_in_` after the draw that pass `k` of the retry loop makes right
after its solver call: `getRandomConfiguration(jnt_seed_state_, consistency_limits, jnt_pos_in_)`
when consistency limits were supplied, `getRandomConfiguration(jnt_pos_in_)` otherwise. -/
def nextSeed (env : Env) (dimension_ : Nat) (consistency_limits : List ℚ)
    (jnt_seed_state_ : JntArray) (k : Nat) (jnt_pos_in_ : JntArray) : JntArray :=
  if !consistency_limits.isEmpty then
    getRandomConfigurationNear env dimension_ k jnt_seed_state_ consistency_limits jnt_pos_in_
  else
    getRandomConfiguration env dimension_ k jnt_pos_in_

/-- The contents of `jnt_pos_in_` with which pass `j + 1` of the retry loop starts: the
assignment `jnt_pos_in_ = jnt_seed_state_` before the loop for the first pass, the draw of
the pass before for every later pass. -/
def solverSeed (env : Env) (dimension_ : Nat) (consistency_limits : List ℚ)
    (jnt_seed_state_ : JntArray) : Nat → JntArray
  | 0 => jnt_seed_state_
  | j + 1 =>
    nextSeed env dimension_ consistency_limits jnt_seed_state_ (j + 1)
      (solverSeed env dimension_ consistency_limits jnt_seed_state_ j)

/-- The state in which `searchPositionIK` enters its `while(1)` loop when no early return
is taken: `solution` resized, `jnt_seed_state_` filled from the working seed
`ik_seed_state_new`, and `jnt_pos_in_ = jnt_seed_state_`. -/
def loopEntryState (self : KDLCKinematicsPlugin) (ik_seed_state_new : List ℚ)
    (solution : List ℚ) (error_code : Int) : IKState :=
  { entryState self solution error_code with
    solution := resize solution self.dimension_
    jnt_seed_state_ := copyFirst self.dimension_ ik_seed_state_new self.jnt_seed_state_
    jnt_pos_in_ := copyFirst self.dimension_ ik_seed_state_new self.jnt_seed_state_ }

/-- Modelled from the spec: the pose cache (`simple_cache::SimpleCache`, whose code is not
part of the source file) leaves the seed vector passed to `get` as it was when the lookup
is a miss ("MISS: proceed with the original seed and timeout"). -/
def lookupKeepsSeedOnMiss (env : Env) (ik_pose : Pose) (ik_seed_state : List ℚ) : Bool :=
  decide ((env.cache_get ik_pose ik_seed_state).1 = results_t.MISS →
    (env.cache_get ik_pose ik_seed_state).2 = ik_seed_state)

/-! ## Sample collaborators, used to run the model on concrete inputs -/

/-- A sample target pose. -/
def samplePose : Pose := ⟨(1, 0, 0), (0, 0, 0, 1)⟩

/-- A sample environment: the cache lookup answers `cache` whatever the pose, the inverse
solver answers `solver` whatever the seed, the clock reads `clock`, the samplers return the
zero vector of the length of their target, every joint has one variable, and the joint
distance is the absolute difference. -/
def sampleEnv (cache : List ℚ → results_t × List ℚ) (solver : JntArray → Int × JntArray)
    (clock : Nat → ℚ) (joints : Nat) : Env :=
  { now := clock
    cache_get := fun _ seed => cache seed
    poseMsgToKDL := fun q => ⟨[1, 0, 0, 0, 1, 0, 0, 0, 1], [q.position.1, q.position.2.1, q.position.2.2]⟩
    poseKDLToMsg := fun f => ⟨(f.p.getD 0 0, f.p.getD 1 0, f.p.getD 2 0), (0, 0, 0, 1)⟩
    CartToJnt := fun q _ _ => solver q
    JntToCart := fun q _ seg => if 0 ≤ seg then (0, ⟨[1, 0, 0, 0, 1, 0, 0, 0, 1], [q.sum, seg, 0]⟩)
                                else (-1, Frame.Identity)
    randomValues := fun _ => List.replicate joints 0
    randomValuesNearBy := fun _ near _ => near
    numJointStates := joints
    distance := fun i a b => |a.getD i 0 - b.getD i 0| }

/-- A sample initialized plugin with `n` joints and the given chain segments. -/
def samplePlugin (n : Nat) (segments : List String) : KDLCKinematicsPlugin :=
  { active_ := true
    dimension_ := n
    kdl_chain_ := segments
    jnt_seed_state_ := List.replicate n 0
    jnt_pos_in_ := List.replicate n 0
    jnt_pos_out_ := List.replicate n 0 }

/-- A sample environment whose cache never has an entry, whose inverse solver succeeds and
returns its seed, and whose clock stands still. -/
def sampleMissEnv : Env :=
  sampleEnv (fun seed => (results_t.MISS, seed)) (fun q => (0, q)) (fun _ => 0) 1

/-- A sample loop state for one joint: the state in which the retry loop starts for the
seed `[3]`. -/
def sampleLoopState : IKState :=
  { jnt_seed_state_ := [3], jnt_pos_in_ := [3], jnt_pos_out_ := [0]
    solution := [0], error_code := 0, counter := 0
    solver_calls := [], callback_calls := [], cache_inserts := [] }

/-- A sample initialized plugin with two joints and the chain segments `a`, `b`. -/
def sampleChain : KDLCKinematicsPlugin := samplePlugin 2 ["a", "b"]

/-- Sample link names for `getPositionFK`: the second one is not a segment of `sampleChain`. -/
def sampleLinks : List String := ["b", "zz", "a"]

/-- Sample output vector for `getPositionFK`, as the caller passes it. -/
def samplePoses : List Pose := [samplePose, samplePose, samplePose]

/-- A sample environment whose cache never has an entry, whose inverse solver always fails
and whose clock advances by one second per reading. -/
def sampleFailEnv : Env :=
  sampleEnv (fun seed => (results_t.MISS, seed)) (fun q => (-1, q)) (fun k => k) 1

/-- The final state of the sample query with one joint, caller seed `[0]`, limits `[1]`, a
cache hit with configuration `[10]` and a solver that returns its seed. -/
def sampleHitState : IKState :=
  { jnt_seed_state_ := [10], jnt_pos_in_ := [10], jnt_pos_out_ := [10]
    solution := [10], error_code := 1, counter := 1
    solver_calls := [⟨[10], ⟨[1, 0, 0, 0, 1, 0, 0, 0, 1], [1, 0, 0]⟩, 0, [10]⟩]
    callback_calls := [], cache_inserts := [] }

/-! ## Early returns of `searchPositionIK` -/

/-- C1: on an initialized controller whose cache lookup for the target pose returns
`NOSOLUTION`, `searchPositionIK` returns `false` with error code `NO_IK_SOLUTION` and the
chain solver is not invoked, for every seed, timeout, limits vector, callback and fuel. -/
theorem searchPositionIK_cached_nosolution (env : Env) (self : KDLCKinematicsPlugin)
    (fuel : Nat) (ik_pose : Pose) (ik_seed_state : List ℚ) (timeout : ℚ) (solution : List ℚ)
    (solution_callback : IKCallbackFn) (error_code : Int) (consistency_limits : List ℚ)
    (hactive : self.active_ = true)
    (hget : (env.cache_get ik_pose ik_seed_state).1 = results_t.NOSOLUTION) :
    ∃ s, searchPositionIK env self fuel ik_pose ik_seed_state timeout solution
          solution_callback error_code consistency_limits = some (false, s)
      ∧ s.error_code = NO_IK_SOLUTION ∧ s.solver_calls = [] := by
  simp [searchPositionIK, hactive, hget, entryState]

/-- Witness of C1: a cache that answers `NOSOLUTION`, with a solver that would succeed. -/
theorem searchPositionIK_cached_nosolution_witness :
    ∃ s, searchPositionIK
          (sampleEnv (fun seed => (results_t.NOSOLUTION, seed)) (fun q => (0, q)) (fun _ => 0) 2)
          (samplePlugin 2 []) 3 samplePose [1, 2] 5 [] none 0 [] = some (false, s)
      ∧ s.error_code = NO_IK_SOLUTION ∧ s.solver_calls = [] :=
  searchPositionIK_cached_nosolution _ _ _ _ _ _ _ _ _ _ rfl rfl

/-- When no early return is taken, `searchPositionIK` is the retry loop followed by the cache
block, run with the effective timeout, from a state whose seed arrays hold the working seed and
whose `solution` has been resized. -/
theorem searchPositionIK_reaches_loop (env : Env) (self : KDLCKinematicsPlugin)
    (fuel : Nat) (ik_pose : Pose) (ik_seed_state : List ℚ) (timeout : ℚ) (solution : List ℚ)
    (solution_callback : IKCallbackFn) (error_code : Int) (consistency_limits : List ℚ)
    (hactive : self.active_ = true)
    (hget : (env.cache_get ik_pose ik_seed_state).1 ≠ results_t.NOSOLUTION)
    (hseed : (env.cache_get ik_pose ik_seed_state).2.length = self.dimension_)
    (hlim : consistency_limits = [] ∨ consistency_limits.length = self.dimension_) :
    searchPositionIK env self fuel ik_pose ik_seed_state timeout solution
        solution_callback error_code consistency_limits
      = loopThenCacheWrite env self.dimension_ ik_pose
          (effectiveTimeout (env.cache_get ik_pose ik_seed_state).1 timeout)
          solution_callback consistency_limits (env.cache_get ik_pose ik_seed_state).1 fuel
          { entryState self solution error_code with
            solution := resize solution self.dimension_
            jnt_seed_state_ := copyFirst self.dimension_ (env.cache_get ik_pose ik_seed_state).2
              self.jnt_seed_state_
            jnt_pos_in_ := copyFirst self.dimension_ (env.cache_get ik_pose ik_seed_state).2
              self.jnt_seed_state_ } := by
  rcases hlim with h | h
  · simp [searchPositionIK, hactive, hget, hseed, entryState, h]
  · simp [searchPositionIK, hactive, hget, hseed, entryState, h]

/-- C3, as the code has it: when the seed vector as the cache lookup leaves it has a length
other than `dimension_`, or the consistency limits are non-empty with a length other than
`dimension_`, the query on an initialized controller returns `false`, the chain solver is
not invoked and nothing is inserted into the cache, whatever the lookup returned. -/
theorem searchPositionIK_size_mismatch (env : Env) (self : KDLCKinematicsPlugin)
    (fuel : Nat) (ik_pose : Pose) (ik_seed_state : List ℚ) (timeout : ℚ) (solution : List ℚ)
    (solution_callback : IKCallbackFn) (error_code : Int) (consistency_limits : List ℚ)
    (hactive : self.active_ = true)
    (hsize : (env.cache_get ik_pose ik_seed_state).2.length ≠ self.dimension_
      ∨ (consistency_limits ≠ [] ∧ consistency_limits.length ≠ self.dimension_)) :
    ∃ s, searchPositionIK env self fuel ik_pose ik_seed_state timeout solution
          solution_callback error_code consistency_limits = some (false, s)
      ∧ s.solver_calls = [] ∧ s.cache_inserts = [] := by
  by_cases hget : (env.cache_get ik_pose ik_seed_state).1 = results_t.NOSOLUTION
  · simp [searchPositionIK, hactive, hget, entryState]
  · rcases hsize with h | ⟨h1, h2⟩
    · simp [searchPositionIK, hactive, hget, entryState, h]
    · by_cases hs : (env.cache_get ik_pose ik_seed_state).2.length = self.dimension_
      · have he : consistency_limits.isEmpty = false := by
          cases consistency_limits with
          | nil => exact absurd rfl h1
          | cons a l => rfl
        simp [searchPositionIK, hactive, hget, entryState, hs, he, h2]
      · simp [searchPositionIK, hactive, hget, entryState, hs]

/-- Witness of C3 (as the code has it): six joints, limits of length three, a cache hit. -/
theorem searchPositionIK_size_mismatch_witness :
    ∃ s, searchPositionIK
          (sampleEnv (fun _ => (results_t.SUCCESS, [0, 0, 0, 0, 0, 0])) (fun q => (0, q))
            (fun _ => 0) 6)
          (samplePlugin 6 []) 3 samplePose [0, 0, 0, 0, 0, 0] 5 [] none 0 [1, 1, 1]
          = some (false, s)
      ∧ s.solver_calls = [] ∧ s.cache_inserts = [] :=
  searchPositionIK_size_mismatch _ _ _ _ _ _ _ _ _ _ rfl (Or.inr (by decide))

/-- C3 fails as stated: with two joints, a caller seed of length zero and a cache hit that
hands back a configuration of length two, the query passes the size check, invokes the
chain solver once and returns `true`. -/
theorem searchPositionIK_size_mismatch_counterexample :
    ([] : List ℚ).length ≠ (samplePlugin 2 []).dimension_
      ∧ (searchPositionIK
          (sampleEnv (fun _ => (results_t.SUCCESS, [0, 0])) (fun q => (0, q)) (fun _ => 0) 2)
          (samplePlugin 2 []) 1 samplePose [] 1 [] none 0 []).map
            (fun r => (r.1, r.2.solver_calls.length)) = some (true, 1) := by
  decide!

/-- C8, as the code has it: every early rejection reports the same status. A query on a
controller that is not initialized, a query whose cache lookup returns `NOSOLUTION`, and a
query whose working seed or consistency limits have the wrong length each return `false`
with error code `NO_IK_SOLUTION`. -/
theorem searchPositionIK_early_rejection_code (env : Env) (self : KDLCKinematicsPlugin)
    (fuel : Nat) (ik_pose : Pose) (ik_seed_state : List ℚ) (timeout : ℚ) (solution : List ℚ)
    (solution_callback : IKCallbackFn) (error_code : Int) (consistency_limits : List ℚ)
    (hcause : self.active_ = false
      ∨ (env.cache_get ik_pose ik_seed_state).1 = results_t.NOSOLUTION
      ∨ (env.cache_get ik_pose ik_seed_state).2.length ≠ self.dimension_
      ∨ (consistency_limits ≠ [] ∧ consistency_limits.length ≠ self.dimension_)) :
    ∃ s, searchPositionIK env self fuel ik_pose ik_seed_state timeout solution
          solution_callback error_code consistency_limits = some (false, s)
      ∧ s.error_code = NO_IK_SOLUTION := by
  by_cases hactive : self.active_ = false
  · simp [searchPositionIK, hactive]
  · have hact : self.active_ = true := by simpa using hactive
    by_cases hget : (env.cache_get ik_pose ik_seed_state).1 = results_t.NOSOLUTION
    · simp [searchPositionIK, hact, hget]
    · by_cases hs : (env.cache_get ik_pose ik_seed_state).2.length = self.dimension_
      · rcases hcause with h | h | h | ⟨h1, h2⟩
        · exact absurd h hactive
        · exact absurd h hget
        · exact absurd hs h
        · have he : consistency_limits.isEmpty = false := by
            cases consistency_limits with
            | nil => exact absurd rfl h1
            | cons a l => rfl
          simp [searchPositionIK, hact, hget, hs, he, h2]
      · simp [searchPositionIK, hact, hget, hs]

/-- Witness of C8 (as the code has it): a controller that is not initialized. -/
theorem searchPositionIK_early_rejection_code_witness :
    ∃ s, searchPositionIK
          (sampleEnv (fun seed => (results_t.MISS, seed)) (fun q => (0, q)) (fun _ => 0) 2)
          { samplePlugin 2 [] with active_ := false } 3 samplePose [1, 2] 5 [] none 0 []
          = some (false, s)
      ∧ s.error_code = NO_IK_SOLUTION :=
  searchPositionIK_early_rejection_code _ _ _ _ _ _ _ _ _ _ (Or.inl rfl)

/-- C8 fails as stated: the status reported by a controller that is not initialized, the
status reported for a seed of the wrong length and the status reported for a cached
no-solution hit are one and the same value, `NO_IK_SOLUTION`. -/
theorem searchPositionIK_early_rejection_counterexample :
    (searchPositionIK
        (sampleEnv (fun seed => (results_t.MISS, seed)) (fun q => (0, q)) (fun _ => 0) 2)
        { samplePlugin 2 [] with active_ := false } 3 samplePose [1, 2] 5 [] none 0 []).map
          (fun r => (r.1, r.2.error_code)) = some (false, NO_IK_SOLUTION)
    ∧ (searchPositionIK
        (sampleEnv (fun seed => (results_t.MISS, seed)) (fun q => (0, q)) (fun _ => 0) 2)
        (samplePlugin 2 []) 3 samplePose [1, 2, 3] 5 [] none 0 []).map
          (fun r => (r.1, r.2.error_code)) = some (false, NO_IK_SOLUTION)
    ∧ (searchPositionIK
        (sampleEnv (fun seed => (results_t.NOSOLUTION, seed)) (fun q => (0, q)) (fun _ => 0) 2)
        (samplePlugin 2 []) 3 samplePose [1, 2] 5 [] none 0 []).map
          (fun r => (r.1, r.2.error_code)) = some (false, NO_IK_SOLUTION) := by
  decide!

/-! ## The timeout on a cache hit -/

/-- C4, as the code has it: for a strictly positive caller timeout, the timeout that the
retry loop works with after a `SUCCESS` lookup is strictly smaller than the caller's. -/
theorem effectiveTimeout_lt_of_pos (timeout : ℚ) (hpos : 0 < timeout) :
    effectiveTimeout results_t.SUCCESS timeout < timeout := by
  simp only [effectiveTimeout, if_true]
  linarith

/-- Witness of C4 (as the code has it): the default timeout of five seconds. -/
theorem effectiveTimeout_lt_of_pos_witness :
    (0 : ℚ) < 5 ∧ effectiveTimeout results_t.SUCCESS 5 < 5 :=
  ⟨by norm_num, effectiveTimeout_lt_of_pos 5 (by norm_num)⟩

/-- C4 fails as stated: for the timeout zero the effective timeout is zero again, and for
the timeout minus one it is larger than the caller's value. -/
theorem effectiveTimeout_counterexample :
    ¬ (effectiveTimeout results_t.SUCCESS 0 < 0)
      ∧ ¬ (effectiveTimeout results_t.SUCCESS (-1) < -1) := by
  decide!

/-! ## What one pass of the retry loop preserves -/

theorem copyFirst_length (n : Nat) (src dst : List ℚ) :
    (copyFirst n src dst).length = dst.length := by
  simp [copyFirst]

theorem acceptCandidate_state (dimension_ : Nat) (ik_pose : Pose)
    (solution_callback : IKCallbackFn) (s : IKState) :
    let s1 := (acceptCandidate dimension_ ik_pose solution_callback s).state
    s1.cache_inserts = s.cache_inserts ∧ s1.jnt_seed_state_ = s.jnt_seed_state_
      ∧ s1.jnt_pos_out_ = s.jnt_pos_out_ ∧ s1.jnt_pos_in_ = s.jnt_pos_in_
      ∧ s1.solver_calls = s.solver_calls ∧ s1.counter = s.counter
      ∧ s1.solution = copyFirst dimension_ s.jnt_pos_out_ s.solution := by
  cases solution_callback with
  | none => simp [acceptCandidate, Step.state]
  | some cb =>
    simp only [acceptCandidate]
    split_ifs <;> simp [Step.state]

theorem iteration_state (env : Env) (dimension_ : Nat) (ik_pose : Pose) (timeout : ℚ)
    (solution_callback : IKCallbackFn) (consistency_limits : List ℚ) (s : IKState) :
    let s1 := (iteration env dimension_ ik_pose timeout solution_callback
      consistency_limits s).state
    s1.cache_inserts = s.cache_inserts ∧ s1.jnt_seed_state_ = s.jnt_seed_state_
      ∧ s1.solution.length = s.solution.length ∧ s1.counter = s.counter + 1 := by
  simp only [iteration]
  split_ifs
  · simp [Step.state]
  · simp [Step.state]
  · have h := acceptCandidate_state dimension_ ik_pose solution_callback
      { s with counter := s.counter + 1
               jnt_pos_out_ := (env.CartToJnt s.jnt_pos_in_ (env.poseMsgToKDL ik_pose)
                  s.jnt_pos_out_).2
               solver_calls := s.solver_calls ++ [⟨s.jnt_pos_in_, env.poseMsgToKDL ik_pose,
                  (env.CartToJnt s.jnt_pos_in_ (env.poseMsgToKDL ik_pose) s.jnt_pos_out_).1,
                  (env.CartToJnt s.jnt_pos_in_ (env.poseMsgToKDL ik_pose) s.jnt_pos_out_).2⟩]
               jnt_pos_in_ := getRandomConfigurationNear env dimension_ (s.counter + 1)
                  s.jnt_seed_state_ consistency_limits s.jnt_pos_in_ }
    simp only at h
    obtain ⟨h1, h2, -, -, -, h6, h7⟩ := h
    exact ⟨h1, h2, by rw [h7, copyFirst_length], h6⟩
  · simp [Step.state]
  · have h := acceptCandidate_state dimension_ ik_pose solution_callback
      { s with counter := s.counter + 1
               jnt_pos_out_ := (env.CartToJnt s.jnt_pos_in_ (env.poseMsgToKDL ik_pose)
                  s.jnt_pos_out_).2
               solver_calls := s.solver_calls ++ [⟨s.jnt_pos_in_, env.poseMsgToKDL ik_pose,
                  (env.CartToJnt s.jnt_pos_in_ (env.poseMsgToKDL ik_pose) s.jnt_pos_out_).1,
                  (env.CartToJnt s.jnt_pos_in_ (env.poseMsgToKDL ik_pose) s.jnt_pos_out_).2⟩]
               jnt_pos_in_ := getRandomConfiguration env dimension_ (s.counter + 1)
                  s.jnt_pos_in_ }
    simp only at h
    obtain ⟨h1, h2, -, -, -, h6, h7⟩ := h
    exact ⟨h1, h2, by rw [h7, copyFirst_length], h6⟩

theorem retryLoop_state (env : Env) (dimension_ : Nat) (ik_pose : Pose) (timeout : ℚ)
    (solution_callback : IKCallbackFn) (consistency_limits : List ℚ) (fuel : Nat) :
    ∀ (s : IKState) (result : Bool) (s1 : IKState),
      retryLoop env dimension_ ik_pose timeout solution_callback consistency_limits fuel s
        = some (result, s1) →
      s1.cache_inserts = s.cache_inserts ∧ s1.jnt_seed_state_ = s.jnt_seed_state_
        ∧ s1.solution.length = s.solution.length := by
  induction fuel with
  | zero => intro s result s1 h; simp [retryLoop] at h
  | succ n ih =>
    intro s result s1 h
    have hs := iteration_state env dimension_ ik_pose timeout solution_callback
      consistency_limits s
    simp only [retryLoop] at h
    cases hit : iteration env dimension_ ik_pose timeout solution_callback
        consistency_limits s with
    | brk res t =>
      rw [hit] at h hs
      simp only [Option.some.injEq, Prod.mk.injEq] at h
      obtain ⟨-, rfl⟩ := h
      simp only [Step.state] at hs
      exact ⟨hs.1, hs.2.1, hs.2.2.1⟩
    | cont t =>
      rw [hit] at h hs
      simp only [Step.state] at hs
      obtain ⟨h1, h2, h3⟩ := ih t result s1 h
      exact ⟨h1.trans hs.1, h2.trans hs.2.1, h3.trans hs.2.2.1⟩

theorem cacheWrite_of_hit (cache_result : results_t) (ik_pose : Pose) (result : Bool)
    (s : IKState)
    (hhit : cache_result = results_t.SUCCESS ∨ cache_result = results_t.NOSOLUTION) :
    cacheWrite cache_result ik_pose result s = s := by
  rcases hhit with h | h <;> simp [cacheWrite, h]

theorem cacheWrite_of_true (cache_result : results_t) (ik_pose : Pose) (s : IKState) :
    cacheWrite cache_result ik_pose true s = s := by
  simp [cacheWrite]

/-- The retry loop leaves through its deadline `break` at the latest in the pass whose
clock reading has reached the timeout: with the reading number `s.counter + d + 1` timed
out, `d + 1` passes are enough. -/
theorem retryLoop_returns_by_deadline (env : Env) (dimension_ : Nat) (ik_pose : Pose)
    (timeout : ℚ) (solution_callback : IKCallbackFn) (consistency_limits : List ℚ) (d : Nat) :
    ∀ s : IKState, timedOut env (s.counter + d + 1) timeout = true →
      ∃ r, retryLoop env dimension_ ik_pose timeout solution_callback consistency_limits
        (d + 1) s = some r := by
  induction d with
  | zero =>
    intro s h
    simp only [Nat.add_zero] at h
    simp [retryLoop, iteration, h]
  | succ n ih =>
    intro s h
    have hs := iteration_state env dimension_ ik_pose timeout solution_callback
      consistency_limits s
    rw [retryLoop]
    cases hit : iteration env dimension_ ik_pose timeout solution_callback
        consistency_limits s with
    | brk res t => exact ⟨_, rfl⟩
    | cont t =>
      rw [hit] at hs
      simp only [Step.state] at hs
      apply ih t
      rw [hs.2.2.2]
      have e : s.counter + 1 + n + 1 = s.counter + (n + 1) + 1 := by omega
      rw [e]
      exact h

/-! ## The cache block -/

/-- Every query returns at the latest when the clock reading of a deadline check has
reached the effective timeout: if reading number `d + 1` is timed out, `d + 1` passes of
the retry loop are enough fuel. -/
theorem searchPositionIK_returns_by_deadline (env : Env) (self : KDLCKinematicsPlugin)
    (d : Nat) (ik_pose : Pose) (ik_seed_state : List ℚ) (timeout : ℚ) (solution : List ℚ)
    (solution_callback : IKCallbackFn) (error_code : Int) (consistency_limits : List ℚ)
    (hclock : timedOut env (d + 1)
      (effectiveTimeout (env.cache_get ik_pose ik_seed_state).1 timeout) = true) :
    ∃ r, searchPositionIK env self (d + 1) ik_pose ik_seed_state timeout solution
      solution_callback error_code consistency_limits = some r := by
  simp only [searchPositionIK, entryState]
  split_ifs with h1 h2 h3 h4
  · exact ⟨_, rfl⟩
  · exact ⟨_, rfl⟩
  · exact ⟨_, rfl⟩
  · exact ⟨_, rfl⟩
  · obtain ⟨r, hr⟩ := retryLoop_returns_by_deadline env self.dimension_ ik_pose
      (effectiveTimeout (env.cache_get ik_pose ik_seed_state).1 timeout) solution_callback
      consistency_limits d
      { jnt_seed_state_ := copyFirst self.dimension_ (env.cache_get ik_pose ik_seed_state).2
          self.jnt_seed_state_
        jnt_pos_in_ := copyFirst self.dimension_ (env.cache_get ik_pose ik_seed_state).2
          self.jnt_seed_state_
        jnt_pos_out_ := self.jnt_pos_out_
        solution := resize solution self.dimension_
        error_code := error_code
        counter := 0
        solver_calls := []
        callback_calls := []
        cache_inserts := [] }
      (by simpa using hclock)
    simp only [loopThenCacheWrite, hr]
    exact ⟨_, rfl⟩

/-- A query whose cache lookup returned `SUCCESS` or `NOSOLUTION` and that returns has made
no call of `cache_->insert`. -/
theorem searchPositionIK_hit_inserts (env : Env) (self : KDLCKinematicsPlugin)
    (fuel : Nat) (ik_pose : Pose) (ik_seed_state : List ℚ) (timeout : ℚ) (solution : List ℚ)
    (solution_callback : IKCallbackFn) (error_code : Int) (consistency_limits : List ℚ)
    (r : Bool × IKState)
    (hhit : (env.cache_get ik_pose ik_seed_state).1 = results_t.SUCCESS
      ∨ (env.cache_get ik_pose ik_seed_state).1 = results_t.NOSOLUTION)
    (hret : searchPositionIK env self fuel ik_pose ik_seed_state timeout solution
      solution_callback error_code consistency_limits = some r) :
    r.2.cache_inserts = [] := by
  simp only [searchPositionIK, entryState] at hret
  split_ifs at hret with h1 h2 h3 h4
  · simp only [Option.some.injEq] at hret; rw [← hret]
  · simp only [Option.some.injEq] at hret; rw [← hret]
  · simp only [Option.some.injEq] at hret; rw [← hret]
  · simp only [Option.some.injEq] at hret; rw [← hret]
  · simp only [loopThenCacheWrite] at hret
    split at hret
    · simp at hret
    · rename_i result s2 hloop
      simp only [Option.some.injEq] at hret
      rw [← hret]
      simp only
      rw [cacheWrite_of_hit _ _ _ _ hhit]
      exact (retryLoop_state _ _ _ _ _ _ _ _ _ _ hloop).1

/-- C6: when the cache lookup returns `SUCCESS` or `NOSOLUTION`, (1) a query that returns,
in whatever way and with whatever fuel, has made no call of `cache_->insert`, and (2) once
the clock reading of deadline check `d + 1` has reached the effective timeout the query does
return, with no call of `cache_->insert`. -/
theorem searchPositionIK_hit_no_insert (env : Env) (self : KDLCKinematicsPlugin)
    (ik_pose : Pose) (ik_seed_state : List ℚ) (timeout : ℚ) (solution : List ℚ)
    (solution_callback : IKCallbackFn) (error_code : Int) (consistency_limits : List ℚ)
    (hhit : (env.cache_get ik_pose ik_seed_state).1 = results_t.SUCCESS
      ∨ (env.cache_get ik_pose ik_seed_state).1 = results_t.NOSOLUTION) :
    (∀ fuel r, searchPositionIK env self fuel ik_pose ik_seed_state timeout solution
        solution_callback error_code consistency_limits = some r → r.2.cache_inserts = [])
      ∧ (∀ d, timedOut env (d + 1)
            (effectiveTimeout (env.cache_get ik_pose ik_seed_state).1 timeout) = true →
          ∃ r, searchPositionIK env self (d + 1) ik_pose ik_seed_state timeout solution
              solution_callback error_code consistency_limits = some r
            ∧ r.2.cache_inserts = []) := by
  constructor
  · intro fuel r hret
    exact searchPositionIK_hit_inserts env self fuel ik_pose ik_seed_state timeout solution
      solution_callback error_code consistency_limits r hhit hret
  · intro d hclock
    obtain ⟨r, hr⟩ := searchPositionIK_returns_by_deadline env self d ik_pose ik_seed_state
      timeout solution solution_callback error_code consistency_limits hclock
    exact ⟨r, hr, searchPositionIK_hit_inserts env self (d + 1) ik_pose ik_seed_state timeout
      solution solution_callback error_code consistency_limits r hhit hr⟩

/-- Witness of C6: a cache hit whose retry loop runs the solver and accepts. -/
theorem searchPositionIK_hit_no_insert_witness :
    searchPositionIK
        (sampleEnv (fun _ => (results_t.SUCCESS, [10])) (fun q => (0, q)) (fun _ => 0) 1)
        (samplePlugin 1 []) 5 samplePose [0] 1 [] none 0 [1] = some (true, sampleHitState)
      ∧ (true, sampleHitState).2.cache_inserts = [] :=
  ⟨by decide!,
   (searchPositionIK_hit_no_insert
    (sampleEnv (fun _ => (results_t.SUCCESS, [10])) (fun q => (0, q)) (fun _ => 0) 1)
    (samplePlugin 1 []) samplePose [0] 1 [] none 0 [1] (Or.inl rfl)).1 5 _ (by decide!)⟩

/-! ## Array helpers -/

theorem copyFirst_eq_firstN (n : Nat) (src dst : List ℚ) (h : dst.length = n) :
    copyFirst n src dst = firstN n src := by
  simp only [copyFirst, firstN, h]
  apply List.map_congr_left
  intro i hi
  simp [List.mem_range.mp hi]

theorem firstN_getD (n : Nat) (v : List ℚ) (i : Nat) (hi : i < n) :
    (firstN n v).getD i 0 = v.getD i 0 := by
  simp [firstN, List.getD_eq_getElem?_getD, List.getElem?_map, List.getElem?_range hi]

theorem firstN_firstN (n : Nat) (v : List ℚ) : firstN n (firstN n v) = firstN n v := by
  simp only [firstN]
  apply List.map_congr_left
  intro i hi
  exact firstN_getD n v i (List.mem_range.mp hi)

theorem resize_length (v : List ℚ) (n : Nat) : (resize v n).length = n := by
  simp only [resize, List.length_append, List.length_take, List.length_replicate]
  omega

/-- The function `checkConsistency` reads only the first `dimension_` entries of the seed
and of the solution. -/
theorem checkConsistency_firstN (env : Env) (dimension_ : Nat) (seed_state : JntArray)
    (consistency_limits : List ℚ) (solution : JntArray) :
    checkConsistency env dimension_ (firstN dimension_ seed_state) consistency_limits
        (firstN dimension_ solution)
      = checkConsistency env dimension_ seed_state consistency_limits solution := by
  simp only [checkConsistency]
  rw [copyFirst_eq_firstN _ _ _ (List.length_replicate _ _),
    copyFirst_eq_firstN _ _ _ (List.length_replicate _ _),
    copyFirst_eq_firstN _ _ _ (List.length_replicate _ _),
    copyFirst_eq_firstN _ _ _ (List.length_replicate _ _), firstN_firstN, firstN_firstN]

/-! ## Acceptance in the retry loop -/

theorem acceptCandidate_brk (dimension_ : Nat) (ik_pose : Pose)
    (solution_callback : IKCallbackFn) (s s1 : IKState) (result : Bool)
    (h : acceptCandidate dimension_ ik_pose solution_callback s = Step.brk result s1) :
    result = true ∧ s1.error_code = SUCCESS
      ∧ s1.solution = copyFirst dimension_ s.jnt_pos_out_ s.solution
      ∧ s1.jnt_pos_out_ = s.jnt_pos_out_ ∧ s1.solver_calls = s.solver_calls := by
  have hs := acceptCandidate_state dimension_ ik_pose solution_callback s
  simp only [h, Step.state] at hs
  obtain ⟨-, -, h3, -, h5, -, h7⟩ := hs
  simp only [acceptCandidate] at h
  split_ifs at h with hc
  simp only [Step.brk.injEq] at h
  obtain ⟨hr, hst⟩ := h
  refine ⟨hr.symm, ?_, h7, h3, h5⟩
  rw [← hst]
  exact hc

/-- A pass of the loop body that leaves with `result = true` has called the solver, got a
non-negative return code, passed the consistency check against `jnt_seed_state_` when limits
were supplied, and has copied the solver output into `solution`. -/
theorem iteration_accept (env : Env) (dimension_ : Nat) (ik_pose : Pose) (timeout : ℚ)
    (solution_callback : IKCallbackFn) (consistency_limits : List ℚ) (s s1 : IKState)
    (h : iteration env dimension_ ik_pose timeout solution_callback consistency_limits s
      = Step.brk true s1) :
    0 ≤ (env.CartToJnt s.jnt_pos_in_ (env.poseMsgToKDL ik_pose) s.jnt_pos_out_).1
      ∧ s1.solution = copyFirst dimension_
          (env.CartToJnt s.jnt_pos_in_ (env.poseMsgToKDL ik_pose) s.jnt_pos_out_).2 s.solution
      ∧ s1.solver_calls = s.solver_calls ++ [⟨s.jnt_pos_in_, env.poseMsgToKDL ik_pose,
          (env.CartToJnt s.jnt_pos_in_ (env.poseMsgToKDL ik_pose) s.jnt_pos_out_).1,
          (env.CartToJnt s.jnt_pos_in_ (env.poseMsgToKDL ik_pose) s.jnt_pos_out_).2⟩]
      ∧ s1.error_code = SUCCESS
      ∧ (consistency_limits.isEmpty = false →
          checkConsistency env dimension_ s.jnt_seed_state_ consistency_limits
            (env.CartToJnt s.jnt_pos_in_ (env.poseMsgToKDL ik_pose) s.jnt_pos_out_).2 = true) := by
  simp only [iteration] at h
  split_ifs at h with h1 h2 h3 h4
  · simp at h
  · obtain ⟨-, he, hsol, -, hcalls⟩ := acceptCandidate_brk _ _ _ _ _ _ h
    simp only [Bool.or_eq_true, decide_eq_true_eq, Bool.not_eq_true', not_or, not_lt,
      Bool.not_eq_false] at h3
    exact ⟨h3.1, hsol, hcalls, he, fun _ => h3.2⟩
  · obtain ⟨-, he, hsol, -, hcalls⟩ := acceptCandidate_brk _ _ _ _ _ _ h
    simp only [Bool.not_eq_true', Bool.not_eq_false] at h2
    refine ⟨not_lt.mp h4, hsol, hcalls, he, fun hne => ?_⟩
    simp [hne] at h2

/-- A run of the retry loop that ends with `result = true` ends right after a solver call
with a non-negative return code whose output is the final `solution` and, when limits were
supplied, is consistent with `jnt_seed_state_`. -/
theorem retryLoop_accept (env : Env) (dimension_ : Nat) (ik_pose : Pose) (timeout : ℚ)
    (solution_callback : IKCallbackFn) (consistency_limits : List ℚ) (fuel : Nat) :
    ∀ (s s1 : IKState), s.solution.length = dimension_ →
      retryLoop env dimension_ ik_pose timeout solution_callback consistency_limits fuel s
        = some (true, s1) →
      ∃ c : SolverCall, s1.solver_calls.getLast? = some c ∧ 0 ≤ c.ik_valid
        ∧ (∃ q_out, env.CartToJnt c.q_init (env.poseMsgToKDL ik_pose) q_out
            = (c.ik_valid, c.q_out))
        ∧ s1.solution = firstN dimension_ c.q_out
        ∧ s1.error_code = SUCCESS
        ∧ (consistency_limits.isEmpty = false →
            checkConsistency env dimension_ s.jnt_seed_state_ consistency_limits c.q_out
              = true) := by
  induction fuel with
  | zero => intro s s1 _ h; simp [retryLoop] at h
  | succ n ih =>
    intro s s1 hlen h
    have hs := iteration_state env dimension_ ik_pose timeout solution_callback
      consistency_limits s
    simp only [retryLoop] at h
    cases hit : iteration env dimension_ ik_pose timeout solution_callback
        consistency_limits s with
    | brk res t =>
      rw [hit] at h
      simp only [Option.some.injEq, Prod.mk.injEq] at h
      obtain ⟨rfl, rfl⟩ := h
      obtain ⟨h1, h2, h3, h4, h5⟩ := iteration_accept _ _ _ _ _ _ _ _ hit
      refine ⟨⟨s.jnt_pos_in_, env.poseMsgToKDL ik_pose,
          (env.CartToJnt s.jnt_pos_in_ (env.poseMsgToKDL ik_pose) s.jnt_pos_out_).1,
          (env.CartToJnt s.jnt_pos_in_ (env.poseMsgToKDL ik_pose) s.jnt_pos_out_).2⟩,
        ?_, h1, ⟨s.jnt_pos_out_, rfl⟩, ?_, h4, h5⟩
      · rw [h3]; simp
      · rw [h2]; exact copyFirst_eq_firstN _ _ _ hlen
    | cont t =>
      rw [hit] at h hs
      simp only [Step.state] at hs
      obtain ⟨c, hc⟩ := ih t s1 (hs.2.2.1.trans hlen) h
      rw [hs.2.1] at hc
      exact ⟨c, hc⟩

/-- C5, as the code has it: a query with non-empty consistency limits that returns `true`
returns the output of its last solver call, that call reported success, and
`checkConsistency` holds for it relative to the working seed, that is the seed vector as the
cache lookup leaves it (the cached configuration after a `SUCCESS` hit). -/
theorem searchPositionIK_accepted_consistent (env : Env) (self : KDLCKinematicsPlugin)
    (fuel : Nat) (ik_pose : Pose) (ik_seed_state : List ℚ) (timeout : ℚ) (solution : List ℚ)
    (solution_callback : IKCallbackFn) (error_code : Int) (consistency_limits : List ℚ)
    (s : IKState)
    (hmember : self.jnt_seed_state_.length = self.dimension_)
    (hlimits : consistency_limits ≠ [])
    (hret : searchPositionIK env self fuel ik_pose ik_seed_state timeout solution
      solution_callback error_code consistency_limits = some (true, s)) :
    ∃ c : SolverCall, s.solver_calls.getLast? = some c ∧ 0 ≤ c.ik_valid
      ∧ (∃ q_out, env.CartToJnt c.q_init (env.poseMsgToKDL ik_pose) q_out
          = (c.ik_valid, c.q_out))
      ∧ s.solution = firstN self.dimension_ c.q_out
      ∧ checkConsistency env self.dimension_ (env.cache_get ik_pose ik_seed_state).2
          consistency_limits s.solution = true := by
  have he : consistency_limits.isEmpty = false := by
    cases consistency_limits with
    | nil => exact absurd rfl hlimits
    | cons a l => rfl
  simp only [searchPositionIK, entryState] at hret
  split_ifs at hret with h1 h2 h3 h4
  · simp at hret
  · simp at hret
  · simp at hret
  · simp at hret
  · simp only [loopThenCacheWrite] at hret
    split at hret
    · simp at hret
    · rename_i result s2 hloop
      simp only [Option.some.injEq, Prod.mk.injEq] at hret
      obtain ⟨rfl, rfl⟩ := hret
      obtain ⟨c, hc1, hc2, hc3, hc4, -, hc6⟩ :=
        retryLoop_accept _ _ _ _ _ _ _ _ _ (resize_length _ _) hloop
      rw [cacheWrite_of_true]
      refine ⟨c, hc1, hc2, hc3, hc4, ?_⟩
      have hcons := hc6 he
      simp only at hcons
      rw [copyFirst_eq_firstN _ _ _ hmember] at hcons
      rw [hc4, ← hcons, ← checkConsistency_firstN env self.dimension_
        (firstN self.dimension_ (env.cache_get ik_pose ik_seed_state).2), firstN_firstN,
        ← checkConsistency_firstN env self.dimension_
        (env.cache_get ik_pose ik_seed_state).2, firstN_firstN]

/-- Witness of C5 (as the code has it): one joint, caller seed `[0]`, limits `[1]`, a cache
hit with configuration `[10]`; the accepted solution `[10]` is consistent with `[10]`. -/
theorem searchPositionIK_accepted_consistent_witness :
    ∃ c : SolverCall, sampleHitState.solver_calls.getLast? = some c ∧ 0 ≤ c.ik_valid
      ∧ (∃ q_out, (sampleEnv (fun _ => (results_t.SUCCESS, [10])) (fun q => (0, q))
            (fun _ => 0) 1).CartToJnt c.q_init
            ((sampleEnv (fun _ => (results_t.SUCCESS, [10])) (fun q => (0, q))
              (fun _ => 0) 1).poseMsgToKDL samplePose) q_out = (c.ik_valid, c.q_out))
      ∧ sampleHitState.solution = firstN (samplePlugin 1 []).dimension_ c.q_out
      ∧ checkConsistency
          (sampleEnv (fun _ => (results_t.SUCCESS, [10])) (fun q => (0, q)) (fun _ => 0) 1)
          (samplePlugin 1 []).dimension_
          ((sampleEnv (fun _ => (results_t.SUCCESS, [10])) (fun q => (0, q))
            (fun _ => 0) 1).cache_get samplePose [0]).2 [1] sampleHitState.solution = true :=
  searchPositionIK_accepted_consistent
    (sampleEnv (fun _ => (results_t.SUCCESS, [10])) (fun q => (0, q)) (fun _ => 0) 1)
    (samplePlugin 1 []) 5 samplePose [0] 1 [] none 0 [1] sampleHitState rfl (by decide)
    (by decide!)

/-- C5 fails as stated: one joint, caller seed `[0]`, limits `[1]`, a cache hit with
configuration `[10]` and a solver that returns its seed. The query returns `true` with the
solution `[10]`, which is not consistent with the caller's seed `[0]`. -/
theorem searchPositionIK_accepted_consistent_counterexample :
    (searchPositionIK
        (sampleEnv (fun _ => (results_t.SUCCESS, [10])) (fun q => (0, q)) (fun _ => 0) 1)
        (samplePlugin 1 []) 5 samplePose [0] 1 [] none 0 [1]).map
          (fun r => (r.1, r.2.solution)) = some (true, [10])
      ∧ checkConsistency
          (sampleEnv (fun _ => (results_t.SUCCESS, [10])) (fun q => (0, q)) (fun _ => 0) 1)
          1 [0] [1] [10] = false := by
  decide!

/-! ## The callback -/

/-- The loop body from a state in which the deadline has not passed, the solver returns a
non-negative code and the consistency test (if any) passes: it is the tail `acceptCandidate`
run on the state after the solver call and the draw of the next seed. -/
theorem iteration_of_pass (env : Env) (dimension_ : Nat) (ik_pose : Pose) (timeout : ℚ)
    (solution_callback : IKCallbackFn) (consistency_limits : List ℚ) (s : IKState)
    (hdeadline : timedOut env (s.counter + 1) timeout = false)
    (hvalid : 0 ≤ (env.CartToJnt s.jnt_pos_in_ (env.poseMsgToKDL ik_pose) s.jnt_pos_out_).1)
    (hcons : consistency_limits.isEmpty = true
      ∨ checkConsistency env dimension_ s.jnt_seed_state_ consistency_limits
          (env.CartToJnt s.jnt_pos_in_ (env.poseMsgToKDL ik_pose) s.jnt_pos_out_).2 = true) :
    ∃ s2 : IKState,
      iteration env dimension_ ik_pose timeout solution_callback consistency_limits s
        = acceptCandidate dimension_ ik_pose solution_callback s2
      ∧ s2.jnt_pos_out_
          = (env.CartToJnt s.jnt_pos_in_ (env.poseMsgToKDL ik_pose) s.jnt_pos_out_).2
      ∧ s2.solution = s.solution ∧ s2.error_code = s.error_code
      ∧ s2.counter = s.counter + 1 ∧ s2.callback_calls = s.callback_calls := by
  have hv : ¬ (env.CartToJnt s.jnt_pos_in_ (env.poseMsgToKDL ik_pose) s.jnt_pos_out_).1 < 0 :=
    not_lt.mpr hvalid
  by_cases he : consistency_limits.isEmpty = true
  · refine ⟨{ s with
        counter := s.counter + 1
        jnt_pos_out_ := (env.CartToJnt s.jnt_pos_in_ (env.poseMsgToKDL ik_pose) s.jnt_pos_out_).2
        solver_calls := s.solver_calls ++ [⟨s.jnt_pos_in_, env.poseMsgToKDL ik_pose,
          (env.CartToJnt s.jnt_pos_in_ (env.poseMsgToKDL ik_pose) s.jnt_pos_out_).1,
          (env.CartToJnt s.jnt_pos_in_ (env.poseMsgToKDL ik_pose) s.jnt_pos_out_).2⟩]
        jnt_pos_in_ := getRandomConfiguration env dimension_ (s.counter + 1) s.jnt_pos_in_ },
      ?_, rfl, rfl, rfl, rfl, rfl⟩
    simp only [iteration, hdeadline, he, hv]
    simp
  · have hc := hcons.resolve_left he
    simp only [Bool.not_eq_true] at he
    refine ⟨{ s with
        counter := s.counter + 1
        jnt_pos_out_ := (env.CartToJnt s.jnt_pos_in_ (env.poseMsgToKDL ik_pose) s.jnt_pos_out_).2
        solver_calls := s.solver_calls ++ [⟨s.jnt_pos_in_, env.poseMsgToKDL ik_pose,
          (env.CartToJnt s.jnt_pos_in_ (env.poseMsgToKDL ik_pose) s.jnt_pos_out_).1,
          (env.CartToJnt s.jnt_pos_in_ (env.poseMsgToKDL ik_pose) s.jnt_pos_out_).2⟩]
        jnt_pos_in_ := getRandomConfigurationNear env dimension_ (s.counter + 1)
          s.jnt_seed_state_ consistency_limits s.jnt_pos_in_ },
      ?_, rfl, rfl, rfl, rfl, rfl⟩
    simp only [iteration, hdeadline, he, hv, hc]
    simp

/-- C9: in a pass of the retry loop whose candidate passes the solver and consistency
tests, (1) without a callback the query returns `true` with error code `SUCCESS` and the
candidate as solution; (2) with a callback, the callback is called with the target pose and
the candidate, and the query returns `true` with the candidate when the error code it
leaves is `SUCCESS`, while for any other code the pass ends without a return and the rest
of the query is the rest of the loop from the state the pass leaves. -/
theorem searchPositionIK_candidate_callback (env : Env) (dimension_ : Nat) (ik_pose : Pose)
    (timeout : ℚ) (solution_callback : IKCallbackFn) (consistency_limits : List ℚ)
    (cache_result : results_t) (fuel : Nat) (s : IKState)
    (hdeadline : timedOut env (s.counter + 1) timeout = false)
    (hvalid : 0 ≤ (env.CartToJnt s.jnt_pos_in_ (env.poseMsgToKDL ik_pose) s.jnt_pos_out_).1)
    (hcons : consistency_limits.isEmpty = true
      ∨ checkConsistency env dimension_ s.jnt_seed_state_ consistency_limits
          (env.CartToJnt s.jnt_pos_in_ (env.poseMsgToKDL ik_pose) s.jnt_pos_out_).2 = true) :
    (solution_callback = none →
      ∃ s1, loopThenCacheWrite env dimension_ ik_pose timeout solution_callback
            consistency_limits cache_result (fuel + 1) s = some (true, s1)
        ∧ s1.error_code = SUCCESS
        ∧ s1.solution = copyFirst dimension_
            (env.CartToJnt s.jnt_pos_in_ (env.poseMsgToKDL ik_pose) s.jnt_pos_out_).2 s.solution
        ∧ s1.callback_calls = s.callback_calls)
    ∧ (∀ cb, solution_callback = some cb →
      ∃ s1, (iteration env dimension_ ik_pose timeout solution_callback
              consistency_limits s).state = s1
        ∧ s1.callback_calls = s.callback_calls ++ [(ik_pose, copyFirst dimension_
            (env.CartToJnt s.jnt_pos_in_ (env.poseMsgToKDL ik_pose) s.jnt_pos_out_).2
            s.solution)]
        ∧ s1.error_code = cb (s.counter + 1) ik_pose (copyFirst dimension_
            (env.CartToJnt s.jnt_pos_in_ (env.poseMsgToKDL ik_pose) s.jnt_pos_out_).2
            s.solution) s.error_code
        ∧ s1.solution = copyFirst dimension_
            (env.CartToJnt s.jnt_pos_in_ (env.poseMsgToKDL ik_pose) s.jnt_pos_out_).2 s.solution
        ∧ (s1.error_code = SUCCESS →
            loopThenCacheWrite env dimension_ ik_pose timeout solution_callback
              consistency_limits cache_result (fuel + 1) s = some (true, s1))
        ∧ (s1.error_code ≠ SUCCESS →
            iteration env dimension_ ik_pose timeout solution_callback consistency_limits s
              = Step.cont s1
            ∧ loopThenCacheWrite env dimension_ ik_pose timeout solution_callback
                consistency_limits cache_result (fuel + 1) s
              = loopThenCacheWrite env dimension_ ik_pose timeout solution_callback
                consistency_limits cache_result fuel s1)) := by
  obtain ⟨s2, hit, hout, hsol, hcode, hcnt, hcb⟩ :=
    iteration_of_pass env dimension_ ik_pose timeout solution_callback consistency_limits s
      hdeadline hvalid hcons
  constructor
  · intro hnone
    subst hnone
    refine ⟨{ s2 with solution := copyFirst dimension_ s2.jnt_pos_out_ s2.solution
                      error_code := SUCCESS }, ?_, rfl, ?_, hcb⟩
    · simp only [loopThenCacheWrite, retryLoop, hit, acceptCandidate, if_true]
      rw [cacheWrite_of_true]
    · simp only [hout, hsol]
  · intro cb hsome
    subst hsome
    refine ⟨_, rfl, ?_, ?_, ?_, ?_, ?_⟩
    · rw [hit]
      simp only [acceptCandidate]
      split_ifs <;> simp [Step.state, hout, hsol, hcb]
    · rw [hit]
      simp only [acceptCandidate]
      split_ifs <;> simp [Step.state, hout, hsol, hcode, hcnt]
    · rw [hit]
      simp only [acceptCandidate]
      split_ifs <;> simp [Step.state, hout, hsol]
    · intro hs
      rw [hit] at hs ⊢
      simp only [loopThenCacheWrite, retryLoop, hit]
      simp only [acceptCandidate] at hs ⊢
      split_ifs at hs ⊢ with hc
      · simp only [Step.state]
        rw [cacheWrite_of_true]
      · simp only [Step.state] at hs
        exact absurd hs hc
    · intro hs
      rw [hit] at hs ⊢
      simp only [loopThenCacheWrite, retryLoop, hit]
      simp only [acceptCandidate] at hs ⊢
      split_ifs at hs ⊢ with hc
      · simp only [Step.state] at hs
        exact absurd hc hs
      · simp [Step.state]

/-! ## Forward kinematics -/

theorem fkLoop_succ (env : Env) (self : KDLCKinematicsPlugin) (link_names : List String)
    (jnt_pos_in_ : JntArray) (poses : List Pose) (k : Nat) :
    fkLoop env self link_names jnt_pos_in_ poses (k + 1)
      = fkIteration env self link_names jnt_pos_in_
          (fkLoop env self link_names jnt_pos_in_ poses k) k := by
  simp [fkLoop, List.range_succ]

/-- The state of the link loop of `getPositionFK` after `k` passes. -/
theorem fkLoop_invariant (env : Env) (self : KDLCKinematicsPlugin) (link_names : List String)
    (jnt_pos_in_ : JntArray) (poses : List Pose) (k : Nat) (hk : k ≤ poses.length) :
    (fkLoop env self link_names jnt_pos_in_ poses k).p_out
        = fkFrameBefore env self link_names jnt_pos_in_ k
      ∧ (fkLoop env self link_names jnt_pos_in_ poses k).poses.length = poses.length
      ∧ ((fkLoop env self link_names jnt_pos_in_ poses k).valid = true
          ↔ ∀ i, i < k → 0 ≤ (fkCall env self link_names jnt_pos_in_ i).1)
      ∧ (∀ i, i < k → 0 ≤ (fkCall env self link_names jnt_pos_in_ i).1 →
          (fkLoop env self link_names jnt_pos_in_ poses k).poses[i]?
            = some (env.poseKDLToMsg (fkCall env self link_names jnt_pos_in_ i).2))
      ∧ (∀ i, (i < k → (fkCall env self link_names jnt_pos_in_ i).1 < 0) →
          (fkLoop env self link_names jnt_pos_in_ poses k).poses[i]? = poses[i]?)
      ∧ (fkLoop env self link_names jnt_pos_in_ poses k).fk_calls
          = (List.range k).map (segmentOf self link_names) := by
  induction k with
  | zero =>
    refine ⟨rfl, rfl, ?_, ?_, ?_, rfl⟩
    · simp [fkLoop]
    · intro i hi; exact absurd hi (Nat.not_lt_zero i)
    · intro i _; rfl
  | succ n ih =>
    obtain ⟨h1, h2, h3, h4, h5, h6⟩ := ih (Nat.le_of_succ_le hk)
    have hn : n < (fkLoop env self link_names jnt_pos_in_ poses n).poses.length := by
      rw [h2]; exact hk
    rw [fkLoop_succ]
    simp only [fkIteration, h1]
    have hcall : env.JntToCart jnt_pos_in_ (fkFrameBefore env self link_names jnt_pos_in_ n)
        (segmentOf self link_names n) = fkCall env self link_names jnt_pos_in_ n := rfl
    rw [hcall]
    by_cases hv : (fkCall env self link_names jnt_pos_in_ n).1 ≥ 0
    · simp only [hv, if_true]
      refine ⟨rfl, ?_, ?_, ?_, ?_, ?_⟩
      · simp [h2]
      · rw [h3]
        constructor
        · intro h i hi
          rcases Nat.lt_succ_iff_lt_or_eq.mp hi with hlt | heq
          · exact h i hlt
          · rw [heq]; exact hv
        · intro h i hi
          exact h i (Nat.lt_succ_of_lt hi)
      · intro i hi hok
        rcases Nat.lt_succ_iff_lt_or_eq.mp hi with hlt | heq
        · rw [List.getElem?_set_ne (Nat.ne_of_gt hlt)]
          exact h4 i hlt hok
        · subst heq
          rw [List.getElem?_set_self hn]
      · intro i hi
        have hne : n ≠ i := by
          intro heq
          subst heq
          exact absurd (hi (Nat.lt_succ_self n)) (not_lt.mpr hv)
        rw [List.getElem?_set_ne hne]
        exact h5 i (fun hlt => hi (Nat.lt_succ_of_lt hlt))
      · rw [h6, List.range_succ, List.map_append]
        rfl
    · simp only [hv, if_false]
      refine ⟨rfl, h2, ?_, ?_, ?_, ?_⟩
      · constructor
        · intro h; exact absurd h (by simp)
        · intro h; exact absurd (h n (Nat.lt_succ_self n)) hv
      · intro i hi hok
        rcases Nat.lt_succ_iff_lt_or_eq.mp hi with hlt | heq
        · exact h4 i hlt hok
        · subst heq; exact absurd hok hv
      · intro i hi
        exact h5 i (fun hlt => hi (Nat.lt_succ_of_lt hlt))
      · rw [h6, List.range_succ, List.map_append]
        rfl

theorem firstN_self (n : Nat) (v : List ℚ) (h : v.length = n) : firstN n v = v := by
  subst h
  apply List.ext_getElem
  · simp [firstN]
  · intro i h1 h2
    simp [firstN, List.getD_eq_getElem?_getD, List.getElem?_eq_getElem h2]

theorem map_segmentOf_range (self : KDLCKinematicsPlugin) (link_names : List String) :
    (List.range link_names.length).map (segmentOf self link_names)
      = link_names.map (getKDLSegmentIndex self) := by
  apply List.ext_getElem
  · simp
  · intro i h1 h2
    have hi : i < link_names.length := by simpa using h2
    simp [segmentOf, List.getD_eq_getElem?_getD, List.getElem?_eq_getElem hi]

/-- C7: on an initialized controller, with `poses` as long as `link_names` and
`joint_angles` of length `dimension_`, `getPositionFK` calls the forward solver once per
requested link, in order, at `getKDLSegmentIndex` of its name; it returns `true` exactly
when every call returns a non-negative code; `poses[i]` is the converted frame of call `i`
where that call succeeded and the caller's `poses[i]` where it failed. -/
theorem getPositionFK_spec (env : Env) (self : KDLCKinematicsPlugin)
    (link_names : List String) (joint_angles : List ℚ) (poses : List Pose)
    (hactive : self.active_ = true)
    (hmember : self.jnt_pos_in_.length = self.dimension_)
    (hposes : poses.length = link_names.length)
    (hangles : joint_angles.length = self.dimension_) :
    ((getPositionFK env self link_names joint_angles poses).ret = true
        ↔ ∀ i, i < link_names.length → 0 ≤ (fkCall env self link_names joint_angles i).1)
      ∧ (getPositionFK env self link_names joint_angles poses).poses.length = poses.length
      ∧ (∀ i, i < link_names.length → 0 ≤ (fkCall env self link_names joint_angles i).1 →
          (getPositionFK env self link_names joint_angles poses).poses[i]?
            = some (env.poseKDLToMsg (fkCall env self link_names joint_angles i).2))
      ∧ (∀ i, i < link_names.length → (fkCall env self link_names joint_angles i).1 < 0 →
          (getPositionFK env self link_names joint_angles poses).poses[i]? = poses[i]?)
      ∧ (getPositionFK env self link_names joint_angles poses).fk_calls
          = link_names.map (getKDLSegmentIndex self) := by
  have hq : copyFirst self.dimension_ joint_angles self.jnt_pos_in_ = joint_angles := by
    rw [copyFirst_eq_firstN _ _ _ hmember, firstN_self _ _ hangles]
  obtain ⟨-, h2, h3, h4, h5, h6⟩ :=
    fkLoop_invariant env self link_names joint_angles poses poses.length (Nat.le_refl _)
  have hret : getPositionFK env self link_names joint_angles poses
      = ⟨(fkLoop env self link_names joint_angles poses poses.length).valid,
         (fkLoop env self link_names joint_angles poses poses.length).poses,
         joint_angles,
         (fkLoop env self link_names joint_angles poses poses.length).fk_calls⟩ := by
    simp [getPositionFK, hactive, hposes, hangles, hq]
  rw [hret]
  simp only
  rw [← hposes]
  refine ⟨h3, h2, h4, ?_, ?_⟩
  · intro i hi hfail
    exact h5 i (fun _ => hfail)
  · rw [h6, hposes, map_segmentOf_range]

/-- Witness of C7: two joints, three requested links, the second of which is not in the
chain. -/
theorem getPositionFK_spec_witness :
    ((getPositionFK sampleMissEnv sampleChain sampleLinks [1, 2] samplePoses).ret = true
        ↔ ∀ i, i < sampleLinks.length →
            0 ≤ (fkCall sampleMissEnv sampleChain sampleLinks [1, 2] i).1)
      ∧ (getPositionFK sampleMissEnv sampleChain sampleLinks [1, 2] samplePoses).poses.length
          = samplePoses.length
      ∧ (∀ i, i < sampleLinks.length →
          0 ≤ (fkCall sampleMissEnv sampleChain sampleLinks [1, 2] i).1 →
          (getPositionFK sampleMissEnv sampleChain sampleLinks [1, 2] samplePoses).poses[i]?
            = some (sampleMissEnv.poseKDLToMsg
                (fkCall sampleMissEnv sampleChain sampleLinks [1, 2] i).2))
      ∧ (∀ i, i < sampleLinks.length →
          (fkCall sampleMissEnv sampleChain sampleLinks [1, 2] i).1 < 0 →
          (getPositionFK sampleMissEnv sampleChain sampleLinks [1, 2] samplePoses).poses[i]?
            = samplePoses[i]?)
      ∧ (getPositionFK sampleMissEnv sampleChain sampleLinks [1, 2] samplePoses).fk_calls
          = sampleLinks.map (getKDLSegmentIndex sampleChain) :=
  getPositionFK_spec sampleMissEnv sampleChain sampleLinks [1, 2] samplePoses rfl rfl rfl rfl

/-- Witness of C9: one joint, the loop state for the seed `[3]`, a solver that succeeds with
its seed; first without a callback, then with a callback that leaves the code `-12`. -/
theorem searchPositionIK_candidate_callback_witness :
    (∃ s1, loopThenCacheWrite sampleMissEnv 1 samplePose 1 none [] results_t.MISS 1
            sampleLoopState = some (true, s1)
        ∧ s1.error_code = SUCCESS
        ∧ s1.solution = copyFirst 1
            (sampleMissEnv.CartToJnt sampleLoopState.jnt_pos_in_
              (sampleMissEnv.poseMsgToKDL samplePose) sampleLoopState.jnt_pos_out_).2
            sampleLoopState.solution
        ∧ s1.callback_calls = sampleLoopState.callback_calls)
      ∧ (∃ s1, (iteration sampleMissEnv 1 samplePose 1 (some (fun _ _ _ _ => -12)) []
              sampleLoopState).state = s1
        ∧ s1.callback_calls = [(samplePose, [3])]
        ∧ s1.error_code = -12
        ∧ iteration sampleMissEnv 1 samplePose 1 (some (fun _ _ _ _ => -12)) []
            sampleLoopState = Step.cont s1) := by
  refine ⟨(searchPositionIK_candidate_callback sampleMissEnv 1 samplePose 1 none []
      results_t.MISS 0 sampleLoopState (by decide!) (by decide!) (Or.inl rfl)).1 rfl, ?_⟩
  obtain ⟨s1, h1, h2, h3, -, -, h6⟩ :=
    (searchPositionIK_candidate_callback sampleMissEnv 1 samplePose 1
      (some (fun _ _ _ _ => -12)) [] results_t.MISS 0 sampleLoopState
      (by decide!) (by decide!) (Or.inl rfl)).2 _ rfl
  refine ⟨s1, h1, ?_, h3, (h6 ?_).1⟩
  · rw [h2]; decide!
  · rw [h3]; decide

/-! ## What the cache block writes -/

/-- C2 fails on the code: with an empty cache (lookup `MISS`), a solver that succeeds in the
first pass and no callback, the query returns `true` with the accepted configuration as
`solution`, and no call of `cache_->insert` has been made. -/
theorem searchPositionIK_success_not_inserted :
    (searchPositionIK
        (sampleEnv (fun seed => (results_t.MISS, seed)) (fun q => (0, q)) (fun _ => 0) 2)
        (samplePlugin 2 []) 5 samplePose [1 / 2, 1 / 3] 1 [] none 0 []).map
          (fun r => (r.1, r.2.solution, r.2.solver_calls.length, r.2.cache_inserts))
      = some (true, [1 / 2, 1 / 3], 1, []) := by
  decide!

/-- No query that returns `true` makes a call of `cache_->insert`: the cache block inserts
only under `!result`. -/
theorem searchPositionIK_true_no_insert (env : Env) (self : KDLCKinematicsPlugin)
    (fuel : Nat) (ik_pose : Pose) (ik_seed_state : List ℚ) (timeout : ℚ) (solution : List ℚ)
    (solution_callback : IKCallbackFn) (error_code : Int) (consistency_limits : List ℚ)
    (s : IKState)
    (hret : searchPositionIK env self fuel ik_pose ik_seed_state timeout solution
      solution_callback error_code consistency_limits = some (true, s)) :
    s.cache_inserts = [] := by
  simp only [searchPositionIK, entryState] at hret
  split_ifs at hret with h1 h2 h3 h4
  · simp at hret
  · simp at hret
  · simp at hret
  · simp at hret
  · simp only [loopThenCacheWrite] at hret
    split at hret
    · simp at hret
    · rename_i result s2 hloop
      simp only [Option.some.injEq, Prod.mk.injEq] at hret
      obtain ⟨rfl, rfl⟩ := hret
      rw [cacheWrite_of_true]
      exact (retryLoop_state _ _ _ _ _ _ _ _ _ _ hloop).1

/-- C10 fails on the code: with an empty cache (lookup `MISS`) and a callback that rejects
the candidate before the deadline passes, the query ends in `TIMED_OUT` with the candidate
as output vector. For the output vectors `[1/2]` and `[1, -1]`, neither of which is the
zero vector, the one call of `cache_->insert` is the call with the no-solution flag. -/
theorem searchPositionIK_nonzero_marked_no_solution :
    (searchPositionIK
        (sampleEnv (fun seed => (results_t.MISS, seed)) (fun _ => (0, [1 / 2])) (fun k => k) 1)
        (samplePlugin 1 []) 5 samplePose [0] 2 [] (some (fun _ _ _ _ => -12)) 0 []).map
          (fun r => (r.1, r.2.error_code, r.2.solution, r.2.cache_inserts))
      = some (false, TIMED_OUT, [1 / 2], [⟨samplePose, [1 / 2], some true⟩])
    ∧ (searchPositionIK
        (sampleEnv (fun seed => (results_t.MISS, seed)) (fun _ => (0, [1, -1])) (fun k => k) 2)
        (samplePlugin 2 []) 5 samplePose [0, 0] 2 [] (some (fun _ _ _ _ => -12)) 0 []).map
          (fun r => (r.1, r.2.error_code, r.2.solution, r.2.cache_inserts))
      = some (false, TIMED_OUT, [1, -1], [⟨samplePose, [1, -1], some true⟩]) := by
  decide!

/-- On a `MISS` without an accepted solution, the call of `cache_->insert` carries the
no-solution flag exactly when the truncating `int` sum of the output vector is zero. -/
theorem cacheWrite_of_miss_false (ik_pose : Pose) (s : IKState) :
    cacheWrite results_t.MISS ik_pose false s
      = { s with cache_inserts := s.cache_inserts ++
            [⟨ik_pose, s.solution, if accumulate s.solution = 0 then some true else none⟩] } := by
  simp only [cacheWrite]
  split_ifs <;> simp_all

/-! ## The deadline check and the solver seeds -/

/-- A pass whose deadline check finds the timeout reached leaves the loop with
`result = false` and `TIMED_OUT`, and touches nothing but the counter and the error code. -/
theorem iteration_of_timed_out (env : Env) (dimension_ : Nat) (ik_pose : Pose) (timeout : ℚ)
    (solution_callback : IKCallbackFn) (consistency_limits : List ℚ) (s : IKState)
    (h : timedOut env (s.counter + 1) timeout = true) :
    iteration env dimension_ ik_pose timeout solution_callback consistency_limits s
      = Step.brk false { s with counter := s.counter + 1, error_code := TIMED_OUT } := by
  simp [iteration, h]

/-- The tail of the loop body ends either in another pass or in a `break` with
`result = true` and `SUCCESS`; it leaves the solver log, the seed arrays and the counter alone. -/
theorem acceptCandidate_cases (dimension_ : Nat) (ik_pose : Pose)
    (solution_callback : IKCallbackFn) (s : IKState) :
    ∃ s1 : IKState,
      (acceptCandidate dimension_ ik_pose solution_callback s = Step.cont s1
        ∨ (acceptCandidate dimension_ ik_pose solution_callback s = Step.brk true s1
            ∧ s1.error_code = SUCCESS))
      ∧ s1.solver_calls = s.solver_calls ∧ s1.jnt_pos_in_ = s.jnt_pos_in_
      ∧ s1.counter = s.counter ∧ s1.jnt_seed_state_ = s.jnt_seed_state_ := by
  have hs := acceptCandidate_state dimension_ ik_pose solution_callback s
  cases hac : acceptCandidate dimension_ ik_pose solution_callback s with
  | brk res t =>
    rw [hac] at hs
    simp only [Step.state] at hs
    obtain ⟨hres, hcode, -, -, -⟩ := acceptCandidate_brk _ _ _ _ _ _ hac
    subst hres
    exact ⟨t, Or.inr ⟨rfl, hcode⟩, hs.2.2.2.2.1, hs.2.2.2.1, hs.2.2.2.2.2.1, hs.2.1⟩
  | cont t =>
    rw [hac] at hs
    simp only [Step.state] at hs
    exact ⟨t, Or.inl rfl, hs.2.2.2.2.1, hs.2.2.2.1, hs.2.2.2.2.2.1, hs.2.1⟩

/-- A pass whose deadline check finds the timeout not reached calls the solver once, with
the current `jnt_pos_in_`, draws the next seed, and ends either in another pass or in a
`break` with `result = true` and `SUCCESS`. -/
theorem iteration_of_not_timed_out (env : Env) (dimension_ : Nat) (ik_pose : Pose)
    (timeout : ℚ) (solution_callback : IKCallbackFn) (consistency_limits : List ℚ)
    (s : IKState) (h : timedOut env (s.counter + 1) timeout = false) :
    ∃ s1 : IKState,
      (iteration env dimension_ ik_pose timeout solution_callback consistency_limits s
          = Step.cont s1
        ∨ (iteration env dimension_ ik_pose timeout solution_callback consistency_limits s
            = Step.brk true s1 ∧ s1.error_code = SUCCESS))
      ∧ s1.solver_calls = s.solver_calls ++ [⟨s.jnt_pos_in_, env.poseMsgToKDL ik_pose,
          (env.CartToJnt s.jnt_pos_in_ (env.poseMsgToKDL ik_pose) s.jnt_pos_out_).1,
          (env.CartToJnt s.jnt_pos_in_ (env.poseMsgToKDL ik_pose) s.jnt_pos_out_).2⟩]
      ∧ s1.jnt_pos_in_ = nextSeed env dimension_ consistency_limits s.jnt_seed_state_
          (s.counter + 1) s.jnt_pos_in_
      ∧ s1.counter = s.counter + 1
      ∧ s1.jnt_seed_state_ = s.jnt_seed_state_ := by
  by_cases he : consistency_limits.isEmpty = true
  · by_cases hv : (env.CartToJnt s.jnt_pos_in_ (env.poseMsgToKDL ik_pose) s.jnt_pos_out_).1 < 0
    · refine ⟨({ s with
          counter := s.counter + 1
          jnt_pos_out_ := (env.CartToJnt s.jnt_pos_in_ (env.poseMsgToKDL ik_pose)
            s.jnt_pos_out_).2
          solver_calls := s.solver_calls ++ [⟨s.jnt_pos_in_, env.poseMsgToKDL ik_pose,
            (env.CartToJnt s.jnt_pos_in_ (env.poseMsgToKDL ik_pose) s.jnt_pos_out_).1,
            (env.CartToJnt s.jnt_pos_in_ (env.poseMsgToKDL ik_pose) s.jnt_pos_out_).2⟩]
          jnt_pos_in_ := getRandomConfiguration env dimension_ (s.counter + 1)
            s.jnt_pos_in_ } : IKState), Or.inl ?_, rfl, ?_, rfl, rfl⟩
      · simp only [iteration, h, he, hv]
        simp
      · simp [nextSeed, he]
    · obtain ⟨s1, hc, h1, h2, h3, h4⟩ := acceptCandidate_cases dimension_ ik_pose
        solution_callback
        { s with
          counter := s.counter + 1
          jnt_pos_out_ := (env.CartToJnt s.jnt_pos_in_ (env.poseMsgToKDL ik_pose)
            s.jnt_pos_out_).2
          solver_calls := s.solver_calls ++ [⟨s.jnt_pos_in_, env.poseMsgToKDL ik_pose,
            (env.CartToJnt s.jnt_pos_in_ (env.poseMsgToKDL ik_pose) s.jnt_pos_out_).1,
            (env.CartToJnt s.jnt_pos_in_ (env.poseMsgToKDL ik_pose) s.jnt_pos_out_).2⟩]
          jnt_pos_in_ := getRandomConfiguration env dimension_ (s.counter + 1) s.jnt_pos_in_ }
      have hit : iteration env dimension_ ik_pose timeout solution_callback
          consistency_limits s = acceptCandidate dimension_ ik_pose solution_callback
        { s with
          counter := s.counter + 1
          jnt_pos_out_ := (env.CartToJnt s.jnt_pos_in_ (env.poseMsgToKDL ik_pose)
            s.jnt_pos_out_).2
          solver_calls := s.solver_calls ++ [⟨s.jnt_pos_in_, env.poseMsgToKDL ik_pose,
            (env.CartToJnt s.jnt_pos_in_ (env.poseMsgToKDL ik_pose) s.jnt_pos_out_).1,
            (env.CartToJnt s.jnt_pos_in_ (env.poseMsgToKDL ik_pose) s.jnt_pos_out_).2⟩]
          jnt_pos_in_ := getRandomConfiguration env dimension_ (s.counter + 1)
            s.jnt_pos_in_ } := by
        simp only [iteration, h, he, hv]
        simp
      refine ⟨s1, ?_, h1, ?_, h3, h4⟩
      · rw [hit]; exact hc
      · rw [h2]; simp [nextSeed, he]
  · have he2 : consistency_limits.isEmpty = false := by simpa using he
    by_cases hrej : ((env.CartToJnt s.jnt_pos_in_ (env.poseMsgToKDL ik_pose) s.jnt_pos_out_).1 < 0
        ∨ checkConsistency env dimension_ s.jnt_seed_state_ consistency_limits
            (env.CartToJnt s.jnt_pos_in_ (env.poseMsgToKDL ik_pose) s.jnt_pos_out_).2 = false)
    · refine ⟨({ s with
          counter := s.counter + 1
          jnt_pos_out_ := (env.CartToJnt s.jnt_pos_in_ (env.poseMsgToKDL ik_pose)
            s.jnt_pos_out_).2
          solver_calls := s.solver_calls ++ [⟨s.jnt_pos_in_, env.poseMsgToKDL ik_pose,
            (env.CartToJnt s.jnt_pos_in_ (env.poseMsgToKDL ik_pose) s.jnt_pos_out_).1,
            (env.CartToJnt s.jnt_pos_in_ (env.poseMsgToKDL ik_pose) s.jnt_pos_out_).2⟩]
          jnt_pos_in_ := getRandomConfigurationNear env dimension_ (s.counter + 1)
            s.jnt_seed_state_ consistency_limits s.jnt_pos_in_ } : IKState), Or.inl ?_, rfl, ?_, rfl, rfl⟩
      · simp only [iteration, h, he2]
        simp [hrej]
      · simp [nextSeed, he2]
    · obtain ⟨s1, hc, h1, h2, h3, h4⟩ := acceptCandidate_cases dimension_ ik_pose
        solution_callback
        { s with
          counter := s.counter + 1
          jnt_pos_out_ := (env.CartToJnt s.jnt_pos_in_ (env.poseMsgToKDL ik_pose)
            s.jnt_pos_out_).2
          solver_calls := s.solver_calls ++ [⟨s.jnt_pos_in_, env.poseMsgToKDL ik_pose,
            (env.CartToJnt s.jnt_pos_in_ (env.poseMsgToKDL ik_pose) s.jnt_pos_out_).1,
            (env.CartToJnt s.jnt_pos_in_ (env.poseMsgToKDL ik_pose) s.jnt_pos_out_).2⟩]
          jnt_pos_in_ := getRandomConfigurationNear env dimension_ (s.counter + 1)
            s.jnt_seed_state_ consistency_limits s.jnt_pos_in_ }
      have hit : iteration env dimension_ ik_pose timeout solution_callback
          consistency_limits s = acceptCandidate dimension_ ik_pose solution_callback
        { s with
          counter := s.counter + 1
          jnt_pos_out_ := (env.CartToJnt s.jnt_pos_in_ (env.poseMsgToKDL ik_pose)
            s.jnt_pos_out_).2
          solver_calls := s.solver_calls ++ [⟨s.jnt_pos_in_, env.poseMsgToKDL ik_pose,
            (env.CartToJnt s.jnt_pos_in_ (env.poseMsgToKDL ik_pose) s.jnt_pos_out_).1,
            (env.CartToJnt s.jnt_pos_in_ (env.poseMsgToKDL ik_pose) s.jnt_pos_out_).2⟩]
          jnt_pos_in_ := getRandomConfigurationNear env dimension_ (s.counter + 1)
            s.jnt_seed_state_ consistency_limits s.jnt_pos_in_ } := by
        simp only [iteration, h, he2]
        simp [hrej]
      refine ⟨s1, ?_, h1, ?_, h3, h4⟩
      · rw [hit]; exact hc
      · rw [h2]; simp [nextSeed, he2]

theorem getElem?_snoc_q_init (l : List SolverCall) (c0 c : SolverCall) (j : Nat)
    (f : Nat → JntArray)
    (hl : ∀ i d, l[i]? = some d → d.q_init = f i) (h0 : c0.q_init = f l.length)
    (h : (l ++ [c0])[j]? = some c) : c.q_init = f j := by
  by_cases hj : j < l.length
  · rw [List.getElem?_append_left hj] at h
    exact hl j c h
  · have hge : l.length ≤ j := Nat.le_of_not_lt hj
    rw [List.getElem?_append_right hge] at h
    by_cases hz : j - l.length = 0
    · rw [hz] at h
      simp only [List.getElem?_cons_zero, Option.some.injEq] at h
      have hjl : j = l.length := by omega
      rw [← h, hjl]
      exact h0
    · obtain ⟨k, hk⟩ := Nat.exists_eq_succ_of_ne_zero hz
      rw [hk] at h
      simp at h

/-- The trace of a run of the retry loop that starts in a state in which every logged solver
call was made with the seed `solverSeed` prescribes and after a deadline check that found
the timeout not reached: the same holds at the end; a run that ends with `result = false`
ends in the deadline check after the last solver call, with `TIMED_OUT`; a run that ends
with `result = true` ends with `SUCCESS`. -/
theorem retryLoop_trace (env : Env) (dimension_ : Nat) (ik_pose : Pose) (timeout : ℚ)
    (solution_callback : IKCallbackFn) (consistency_limits : List ℚ) (seed : JntArray)
    (fuel : Nat) :
    ∀ (s : IKState) (result : Bool) (s1 : IKState),
      s.solver_calls.length = s.counter →
      s.jnt_seed_state_ = seed →
      (∀ j c, s.solver_calls[j]? = some c →
        c.q_init = solverSeed env dimension_ consistency_limits seed j) →
      s.jnt_pos_in_ = solverSeed env dimension_ consistency_limits seed s.counter →
      (∀ j, 1 ≤ j → j ≤ s.counter → timedOut env j timeout = false) →
      retryLoop env dimension_ ik_pose timeout solution_callback consistency_limits fuel s
        = some (result, s1) →
      (∀ j c, s1.solver_calls[j]? = some c →
          c.q_init = solverSeed env dimension_ consistency_limits seed j)
        ∧ (∀ j, 1 ≤ j → j ≤ s1.solver_calls.length → timedOut env j timeout = false)
        ∧ (result = false → s1.error_code = TIMED_OUT
            ∧ s1.counter = s1.solver_calls.length + 1
            ∧ timedOut env s1.counter timeout = true)
        ∧ (result = true → s1.error_code = SUCCESS
            ∧ s1.counter = s1.solver_calls.length) := by
  induction fuel with
  | zero => intro s result s1 _ _ _ _ _ h; simp [retryLoop] at h
  | succ n ih =>
    intro s result s1 hlen hseed hlog hin hchk h
    simp only [retryLoop] at h
    by_cases hto : timedOut env (s.counter + 1) timeout = true
    · rw [iteration_of_timed_out _ _ _ _ _ _ _ hto] at h
      simp only [Option.some.injEq, Prod.mk.injEq] at h
      obtain ⟨rfl, rfl⟩ := h
      refine ⟨hlog, ?_, ?_, ?_⟩
      · intro j h1 h2
        exact hchk j h1 (by simpa [hlen] using h2)
      · intro _
        exact ⟨rfl, by simp [hlen], hto⟩
      · intro hf; simp at hf
    · have hnt : timedOut env (s.counter + 1) timeout = false := by simpa using hto
      obtain ⟨t, hcase, hcalls, hnext, hcnt, hsd⟩ := iteration_of_not_timed_out env dimension_
        ik_pose timeout solution_callback consistency_limits s hnt
      have hlen1 : t.solver_calls.length = t.counter := by
        rw [hcalls, hcnt]; simp [hlen]
      have hlog1 : ∀ j c, t.solver_calls[j]? = some c →
          c.q_init = solverSeed env dimension_ consistency_limits seed j := by
        intro j c hj
        rw [hcalls] at hj
        exact getElem?_snoc_q_init _ _ _ _ _ hlog (by rw [hlen]; exact hin) hj
      have hin1 : t.jnt_pos_in_
          = solverSeed env dimension_ consistency_limits seed t.counter := by
        rw [hnext, hcnt, hseed, hin]
        rfl
      have hchk1 : ∀ j, 1 ≤ j → j ≤ t.counter → timedOut env j timeout = false := by
        intro j h1 h2
        rw [hcnt] at h2
        rcases Nat.lt_or_ge j (s.counter + 1) with hlt | hge
        · exact hchk j h1 (Nat.lt_succ_iff.mp hlt)
        · have : j = s.counter + 1 := by omega
          rw [this]; exact hnt
      rcases hcase with hc | ⟨hb, hcode⟩
      · rw [hc] at h
        exact ih t result s1 hlen1 (hsd.trans hseed) hlog1 hin1 hchk1 h
      · rw [hb] at h
        simp only [Option.some.injEq, Prod.mk.injEq] at h
        obtain ⟨rfl, rfl⟩ := h
        refine ⟨hlog1, ?_, ?_, ?_⟩
        · intro j h1 h2
          exact hchk1 j h1 (by rw [← hlen1]; exact h2)
        · intro hf; simp at hf
        · intro _
          exact ⟨hcode, hlen1.symm⟩

theorem cacheWrite_fields (cache_result : results_t) (ik_pose : Pose) (result : Bool)
    (s : IKState) :
    (cacheWrite cache_result ik_pose result s).solver_calls = s.solver_calls
      ∧ (cacheWrite cache_result ik_pose result s).error_code = s.error_code
      ∧ (cacheWrite cache_result ik_pose result s).counter = s.counter
      ∧ (cacheWrite cache_result ik_pose result s).solution = s.solution := by
  simp only [cacheWrite]
  split_ifs <;> simp

/-- A query that returns has either taken an early return, with `false`, `NO_IK_SOLUTION`
and no solver call, or has passed the checks before the loop, run the loop from
`loopEntryState` with the effective timeout, and then the cache block. -/
theorem searchPositionIK_some_cases (env : Env) (self : KDLCKinematicsPlugin)
    (fuel : Nat) (ik_pose : Pose) (ik_seed_state : List ℚ) (timeout : ℚ) (solution : List ℚ)
    (solution_callback : IKCallbackFn) (error_code : Int) (consistency_limits : List ℚ)
    (r : Bool × IKState)
    (hret : searchPositionIK env self fuel ik_pose ik_seed_state timeout solution
      solution_callback error_code consistency_limits = some r) :
    (r.1 = false ∧ r.2.solver_calls = [] ∧ r.2.error_code = NO_IK_SOLUTION
        ∧ (self.active_ = false
          ∨ (env.cache_get ik_pose ik_seed_state).1 = results_t.NOSOLUTION
          ∨ (env.cache_get ik_pose ik_seed_state).2.length ≠ self.dimension_
          ∨ (consistency_limits ≠ [] ∧ consistency_limits.length ≠ self.dimension_)))
      ∨ ((env.cache_get ik_pose ik_seed_state).2.length = self.dimension_
        ∧ ∃ s2, retryLoop env self.dimension_ ik_pose
              (effectiveTimeout (env.cache_get ik_pose ik_seed_state).1 timeout)
              solution_callback consistency_limits fuel
              (loopEntryState self (env.cache_get ik_pose ik_seed_state).2 solution error_code)
            = some (r.1, s2)
          ∧ r.2 = cacheWrite (env.cache_get ik_pose ik_seed_state).1 ik_pose r.1 s2) := by
  simp only [searchPositionIK, entryState] at hret
  split_ifs at hret with h1 h2 h3 h4
  · simp only [Option.some.injEq] at hret
    rw [← hret]
    exact Or.inl ⟨rfl, rfl, rfl, Or.inl (by simpa using h1)⟩
  · simp only [Option.some.injEq] at hret
    rw [← hret]
    exact Or.inl ⟨rfl, rfl, rfl, Or.inr (Or.inl h2)⟩
  · simp only [Option.some.injEq] at hret
    rw [← hret]
    exact Or.inl ⟨rfl, rfl, rfl, Or.inr (Or.inr (Or.inl h3))⟩
  · simp only [Option.some.injEq] at hret
    rw [← hret]
    refine Or.inl ⟨rfl, rfl, rfl, Or.inr (Or.inr (Or.inr ⟨?_, h4.2⟩))⟩
    intro hnil
    rw [hnil] at h4
    simp at h4
  · refine Or.inr ⟨not_not.mp h3, ?_⟩
    simp only [loopThenCacheWrite] at hret
    split at hret
    · simp at hret
    · rename_i result s2 hloop
      simp only [Option.some.injEq] at hret
      rw [← hret]
      exact ⟨s2, hloop, rfl⟩

theorem timedOut_eq_true_iff (env : Env) (k : Nat) (duration : ℚ) :
    timedOut env k duration = true ↔ duration ≤ env.now k - env.now 0 := by
  simp [timedOut]

theorem timedOut_eq_false_iff (env : Env) (k : Nat) (duration : ℚ) :
    timedOut env k duration = false ↔ env.now k - env.now 0 < duration := by
  simp [timedOut]

/-- The trace of a query that passes the checks before the loop and returns: the solver
calls are made with the seeds that `solverSeed` prescribes for the entry seed array, each
after a deadline check that found the timeout not reached; a `false` return carries
`TIMED_OUT` and comes from the deadline check after the last solver call; a `true` return
carries `SUCCESS`. -/
theorem searchPositionIK_loop_trace (env : Env) (self : KDLCKinematicsPlugin)
    (fuel : Nat) (ik_pose : Pose) (timeout : ℚ) (solution : List ℚ)
    (solution_callback : IKCallbackFn) (error_code : Int) (consistency_limits : List ℚ)
    (cache_result : results_t) (ik_seed_state_new : List ℚ) (r : Bool × IKState)
    (s2 : IKState)
    (hloop : retryLoop env self.dimension_ ik_pose timeout solution_callback
        consistency_limits fuel (loopEntryState self ik_seed_state_new solution error_code)
      = some (r.1, s2))
    (hr : r.2 = cacheWrite cache_result ik_pose r.1 s2) :
    (∀ j c, r.2.solver_calls[j]? = some c →
        c.q_init = solverSeed env self.dimension_ consistency_limits
          (copyFirst self.dimension_ ik_seed_state_new self.jnt_seed_state_) j)
      ∧ (∀ j, 1 ≤ j → j ≤ r.2.solver_calls.length → timedOut env j timeout = false)
      ∧ (r.1 = false → r.2.error_code = TIMED_OUT
          ∧ timedOut env (r.2.solver_calls.length + 1) timeout = true)
      ∧ (r.1 = true → r.2.error_code = SUCCESS) := by
  obtain ⟨h1, h2, h3, h4⟩ := retryLoop_trace env self.dimension_ ik_pose timeout
    solution_callback consistency_limits
    (copyFirst self.dimension_ ik_seed_state_new self.jnt_seed_state_) fuel
    (loopEntryState self ik_seed_state_new solution error_code) r.1 s2 rfl rfl
    (by intro j c hj; simp [loopEntryState, entryState] at hj) rfl
    (by
      intro j hj1 hj2
      have : j = 0 := Nat.le_zero.mp hj2
      omega)
    hloop
  obtain ⟨f1, f2, -, -⟩ := cacheWrite_fields cache_result ik_pose r.1 s2
  rw [hr, f1, f2]
  refine ⟨h1, h2, ?_, ?_⟩
  · intro hf
    obtain ⟨a, b, c⟩ := h3 hf
    exact ⟨a, by rw [← b]; exact c⟩
  · intro ht
    exact (h4 ht).1

/-- C11: for a query that reaches the retry loop, with `T` the effective timeout,
(1) in every run that returns, solver call number `j` was made in pass `j` right after the
deadline check of that pass read an elapsed time strictly below `T`; a `false` return
carries `TIMED_OUT`, not `NO_IK_SOLUTION`, and comes from the deadline check after the last
solver call, which read an elapsed time of at least `T`; a `true` return carries `SUCCESS`;
(2) if deadline check `d + 1` is the first to read an elapsed time of at least `T`, the
query returns with fuel `d + 1`, either `true` from an earlier pass or `false` with
`TIMED_OUT` after exactly `d` solver calls;
(3) if `T ≤ 0` and the first elapsed time is non-negative, the query returns `false` with
`TIMED_OUT` and the solver is not invoked. -/
theorem searchPositionIK_deadline (env : Env) (self : KDLCKinematicsPlugin)
    (ik_pose : Pose) (ik_seed_state : List ℚ) (timeout : ℚ) (solution : List ℚ)
    (solution_callback : IKCallbackFn) (error_code : Int) (consistency_limits : List ℚ)
    (hactive : self.active_ = true)
    (hget : (env.cache_get ik_pose ik_seed_state).1 ≠ results_t.NOSOLUTION)
    (hseed : (env.cache_get ik_pose ik_seed_state).2.length = self.dimension_)
    (hlim : consistency_limits = [] ∨ consistency_limits.length = self.dimension_) :
    (∀ fuel r, searchPositionIK env self fuel ik_pose ik_seed_state timeout solution
          solution_callback error_code consistency_limits = some r →
        (∀ j, 1 ≤ j → j ≤ r.2.solver_calls.length →
            env.now j - env.now 0
              < effectiveTimeout (env.cache_get ik_pose ik_seed_state).1 timeout)
          ∧ (r.1 = false → r.2.error_code = TIMED_OUT ∧ r.2.error_code ≠ NO_IK_SOLUTION
              ∧ effectiveTimeout (env.cache_get ik_pose ik_seed_state).1 timeout
                  ≤ env.now (r.2.solver_calls.length + 1) - env.now 0)
          ∧ (r.1 = true → r.2.error_code = SUCCESS))
      ∧ (∀ d, effectiveTimeout (env.cache_get ik_pose ik_seed_state).1 timeout
            ≤ env.now (d + 1) - env.now 0 →
          (∀ j, 1 ≤ j → j ≤ d → env.now j - env.now 0
            < effectiveTimeout (env.cache_get ik_pose ik_seed_state).1 timeout) →
          ∃ r, searchPositionIK env self (d + 1) ik_pose ik_seed_state timeout solution
              solution_callback error_code consistency_limits = some r
            ∧ ((r.1 = true ∧ r.2.solver_calls.length ≤ d)
              ∨ (r.1 = false ∧ r.2.error_code = TIMED_OUT ∧ r.2.solver_calls.length = d)))
      ∧ (effectiveTimeout (env.cache_get ik_pose ik_seed_state).1 timeout ≤ 0 →
          0 ≤ env.now 1 - env.now 0 →
          ∀ fuel, ∃ s, searchPositionIK env self (fuel + 1) ik_pose ik_seed_state timeout
              solution solution_callback error_code consistency_limits = some (false, s)
            ∧ s.error_code = TIMED_OUT ∧ s.solver_calls = []) := by
  have hruns : ∀ fuel r, searchPositionIK env self fuel ik_pose ik_seed_state timeout solution
        solution_callback error_code consistency_limits = some r →
      (∀ j, 1 ≤ j → j ≤ r.2.solver_calls.length →
          timedOut env j (effectiveTimeout (env.cache_get ik_pose ik_seed_state).1 timeout)
            = false)
        ∧ (r.1 = false → r.2.error_code = TIMED_OUT
            ∧ timedOut env (r.2.solver_calls.length + 1)
                (effectiveTimeout (env.cache_get ik_pose ik_seed_state).1 timeout) = true)
        ∧ (r.1 = true → r.2.error_code = SUCCESS) := by
    intro fuel r hret
    rcases searchPositionIK_some_cases env self fuel ik_pose ik_seed_state timeout solution
      solution_callback error_code consistency_limits r hret with ⟨-, -, -, hearly⟩ | ⟨-, s2, hloop, hr⟩
    · rcases hearly with h | h | h | ⟨h1, h2⟩
      · rw [hactive] at h; simp at h
      · exact absurd h hget
      · exact absurd hseed h
      · rcases hlim with h3 | h3
        · exact absurd h3 h1
        · exact absurd h3 h2
    · obtain ⟨-, h2, h3, h4⟩ := searchPositionIK_loop_trace env self fuel ik_pose _ solution
        solution_callback error_code consistency_limits _ _ r s2 hloop hr
      exact ⟨h2, h3, h4⟩
  refine ⟨?_, ?_, ?_⟩
  · intro fuel r hret
    obtain ⟨h1, h2, h3⟩ := hruns fuel r hret
    refine ⟨fun j hj1 hj2 => (timedOut_eq_false_iff _ _ _).mp (h1 j hj1 hj2), ?_, h3⟩
    intro hf
    obtain ⟨a, b⟩ := h2 hf
    refine ⟨a, ?_, (timedOut_eq_true_iff _ _ _).mp b⟩
    rw [a]
    decide
  · intro d hd hbefore
    obtain ⟨r, hr⟩ := searchPositionIK_returns_by_deadline env self d ik_pose ik_seed_state
      timeout solution solution_callback error_code consistency_limits
      ((timedOut_eq_true_iff _ _ _).mpr hd)
    obtain ⟨h1, h2, -⟩ := hruns (d + 1) r hr
    refine ⟨r, hr, ?_⟩
    have hle : r.2.solver_calls.length ≤ d := by
      by_contra hcon
      have hgt : d + 1 ≤ r.2.solver_calls.length := by omega
      have := (timedOut_eq_false_iff _ _ _).mp (h1 (d + 1) (by omega) hgt)
      exact absurd hd (not_le.mpr this)
    cases hres : r.1 with
    | true => exact Or.inl ⟨rfl, hle⟩
    | false =>
      obtain ⟨a, b⟩ := h2 hres
      refine Or.inr ⟨rfl, a, ?_⟩
      by_contra hne
      have hlt : r.2.solver_calls.length + 1 ≤ d := by omega
      have := hbefore (r.2.solver_calls.length + 1) (by omega) hlt
      exact absurd ((timedOut_eq_true_iff _ _ _).mp b) (not_le.mpr this)
  · intro hT hel fuel
    have hto : timedOut env ((loopEntryState self (env.cache_get ik_pose ik_seed_state).2
        solution error_code).counter + 1)
        (effectiveTimeout (env.cache_get ik_pose ik_seed_state).1 timeout) = true :=
      (timedOut_eq_true_iff _ _ _).mpr (le_trans hT hel)
    have hrun := searchPositionIK_reaches_loop env self (fuel + 1) ik_pose ik_seed_state
      timeout solution solution_callback error_code consistency_limits hactive hget hseed hlim
    have hit := iteration_of_timed_out env self.dimension_ ik_pose
      (effectiveTimeout (env.cache_get ik_pose ik_seed_state).1 timeout) solution_callback
      consistency_limits
      (loopEntryState self (env.cache_get ik_pose ik_seed_state).2 solution error_code) hto
    have hloop : loopThenCacheWrite env self.dimension_ ik_pose
        (effectiveTimeout (env.cache_get ik_pose ik_seed_state).1 timeout)
        solution_callback consistency_limits (env.cache_get ik_pose ik_seed_state).1
        (fuel + 1)
        (loopEntryState self (env.cache_get ik_pose ik_seed_state).2 solution error_code)
        = some (false, cacheWrite (env.cache_get ik_pose ik_seed_state).1 ik_pose false
            { loopEntryState self (env.cache_get ik_pose ik_seed_state).2 solution
                error_code with
              counter := (loopEntryState self (env.cache_get ik_pose ik_seed_state).2
                solution error_code).counter + 1
              error_code := TIMED_OUT }) := by
      simp only [loopThenCacheWrite, retryLoop, hit]
    obtain ⟨f1, f2, -, -⟩ := cacheWrite_fields (env.cache_get ik_pose ik_seed_state).1
      ik_pose false
      { loopEntryState self (env.cache_get ik_pose ik_seed_state).2 solution error_code with
        counter := (loopEntryState self (env.cache_get ik_pose ik_seed_state).2
          solution error_code).counter + 1
        error_code := TIMED_OUT }
    exact ⟨_, hrun.trans hloop, f2, f1⟩

/-- Witness of C11: one joint, an empty cache, a solver that always fails and a clock that
advances by one second per reading, with a timeout of two seconds. -/
theorem searchPositionIK_deadline_witness :
    (∀ fuel r, searchPositionIK sampleFailEnv (samplePlugin 1 []) fuel samplePose [0] 2 []
          none 0 [] = some r →
        (∀ j, 1 ≤ j → j ≤ r.2.solver_calls.length →
            sampleFailEnv.now j - sampleFailEnv.now 0
              < effectiveTimeout (sampleFailEnv.cache_get samplePose [0]).1 2)
          ∧ (r.1 = false → r.2.error_code = TIMED_OUT ∧ r.2.error_code ≠ NO_IK_SOLUTION
              ∧ effectiveTimeout (sampleFailEnv.cache_get samplePose [0]).1 2
                  ≤ sampleFailEnv.now (r.2.solver_calls.length + 1) - sampleFailEnv.now 0)
          ∧ (r.1 = true → r.2.error_code = SUCCESS))
      ∧ (∀ d, effectiveTimeout (sampleFailEnv.cache_get samplePose [0]).1 2
            ≤ sampleFailEnv.now (d + 1) - sampleFailEnv.now 0 →
          (∀ j, 1 ≤ j → j ≤ d → sampleFailEnv.now j - sampleFailEnv.now 0
            < effectiveTimeout (sampleFailEnv.cache_get samplePose [0]).1 2) →
          ∃ r, searchPositionIK sampleFailEnv (samplePlugin 1 []) (d + 1) samplePose [0] 2 []
              none 0 [] = some r
            ∧ ((r.1 = true ∧ r.2.solver_calls.length ≤ d)
              ∨ (r.1 = false ∧ r.2.error_code = TIMED_OUT ∧ r.2.solver_calls.length = d)))
      ∧ (effectiveTimeout (sampleFailEnv.cache_get samplePose [0]).1 2 ≤ 0 →
          0 ≤ sampleFailEnv.now 1 - sampleFailEnv.now 0 →
          ∀ fuel, ∃ s, searchPositionIK sampleFailEnv (samplePlugin 1 []) (fuel + 1)
              samplePose [0] 2 [] none 0 [] = some (false, s)
            ∧ s.error_code = TIMED_OUT ∧ s.solver_calls = []) :=
  searchPositionIK_deadline sampleFailEnv (samplePlugin 1 []) samplePose [0] 2 [] none 0 []
    rfl (by decide) rfl (Or.inl rfl)

/-- C12: in every run of `searchPositionIK` that returns, the first solver call (if there
is one) is made with the caller's seed when the cache lookup is a `MISS` and with the
configuration handed back by the cache when the lookup returned `SUCCESS`; every later
solver call is made with the configuration drawn in the pass before, by
`getRandomConfiguration(jnt_seed_state_, consistency_limits, jnt_pos_in_)` when limits were
supplied and by `getRandomConfiguration(jnt_pos_in_)` otherwise. -/
theorem searchPositionIK_solver_seeds (env : Env) (self : KDLCKinematicsPlugin)
    (fuel : Nat) (ik_pose : Pose) (ik_seed_state : List ℚ) (timeout : ℚ) (solution : List ℚ)
    (solution_callback : IKCallbackFn) (error_code : Int) (consistency_limits : List ℚ)
    (r : Bool × IKState)
    (hmember : self.jnt_seed_state_.length = self.dimension_)
    (hkeep : lookupKeepsSeedOnMiss env ik_pose ik_seed_state = true)
    (hret : searchPositionIK env self fuel ik_pose ik_seed_state timeout solution
      solution_callback error_code consistency_limits = some r) :
    (∀ c, r.2.solver_calls[0]? = some c →
        ((env.cache_get ik_pose ik_seed_state).1 = results_t.MISS → c.q_init = ik_seed_state)
          ∧ ((env.cache_get ik_pose ik_seed_state).1 = results_t.SUCCESS →
              c.q_init = (env.cache_get ik_pose ik_seed_state).2))
      ∧ (∀ j c c1, r.2.solver_calls[j]? = some c → r.2.solver_calls[j + 1]? = some c1 →
          (consistency_limits ≠ [] →
              c1.q_init = getRandomConfigurationNear env self.dimension_ (j + 1)
                (env.cache_get ik_pose ik_seed_state).2 consistency_limits c.q_init)
            ∧ (consistency_limits = [] →
              c1.q_init = getRandomConfiguration env self.dimension_ (j + 1) c.q_init)) := by
  rcases searchPositionIK_some_cases env self fuel ik_pose ik_seed_state timeout solution
    solution_callback error_code consistency_limits r hret with
    ⟨-, hnil, -, -⟩ | ⟨hlen, s2, hloop, hr⟩
  · rw [hnil]
    constructor
    · intro c hc; simp at hc
    · intro j c c1 hc; simp at hc
  · obtain ⟨h1, -, -, -⟩ := searchPositionIK_loop_trace env self fuel ik_pose _ solution
      solution_callback error_code consistency_limits _ _ r s2 hloop hr
    have harr : copyFirst self.dimension_ (env.cache_get ik_pose ik_seed_state).2
        self.jnt_seed_state_ = (env.cache_get ik_pose ik_seed_state).2 := by
      rw [copyFirst_eq_firstN _ _ _ hmember, firstN_self _ _ hlen]
    rw [harr] at h1
    constructor
    · intro c hc
      have h0 := h1 0 c hc
      simp only [solverSeed] at h0
      refine ⟨fun hmiss => ?_, fun _ => h0⟩
      rw [h0]
      simp only [lookupKeepsSeedOnMiss, decide_eq_true_eq] at hkeep
      exact hkeep hmiss
    · intro j c c1 hc hc1
      have hj := h1 j c hc
      have hj1 := h1 (j + 1) c1 hc1
      simp only [solverSeed] at hj1
      rw [← hj] at hj1
      constructor
      · intro hne
        have he : consistency_limits.isEmpty = false := by
          cases consistency_limits with
          | nil => exact absurd rfl hne
          | cons a l => rfl
        rw [hj1]
        simp [nextSeed, he]
      · intro hnil
        rw [hj1, hnil]
        simp [nextSeed]

/-- Witness of C12: one joint, an empty cache, limits `[5]`, a solver that always fails and
a clock that advances by one second per reading; with a timeout of three seconds the solver
is called twice. -/
theorem searchPositionIK_solver_seeds_witness :
    ∃ r, searchPositionIK sampleFailEnv (samplePlugin 1 []) 5 samplePose [3] 3 [] none 0 [5]
          = some r
      ∧ r.2.solver_calls.length = 2
      ∧ (∀ c, r.2.solver_calls[0]? = some c →
          ((sampleFailEnv.cache_get samplePose [3]).1 = results_t.MISS → c.q_init = [3])
            ∧ ((sampleFailEnv.cache_get samplePose [3]).1 = results_t.SUCCESS →
                c.q_init = (sampleFailEnv.cache_get samplePose [3]).2))
      ∧ (∀ j c c1, r.2.solver_calls[j]? = some c → r.2.solver_calls[j + 1]? = some c1 →
          (([5] : List ℚ) ≠ [] →
              c1.q_init = getRandomConfigurationNear sampleFailEnv
                (samplePlugin 1 []).dimension_ (j + 1)
                (sampleFailEnv.cache_get samplePose [3]).2 [5] c.q_init)
            ∧ (([5] : List ℚ) = [] →
              c1.q_init = getRandomConfiguration sampleFailEnv
                (samplePlugin 1 []).dimension_ (j + 1) c.q_init)) := by
  obtain ⟨r, hr⟩ := Option.isSome_iff_exists.mp
    (by decide! : (searchPositionIK sampleFailEnv (samplePlugin 1 []) 5 samplePose [3] 3 []
      none 0 [5]).isSome = true)
  have hlen : (searchPositionIK sampleFailEnv (samplePlugin 1 []) 5 samplePose [3] 3 []
      none 0 [5]).map (fun r => r.2.solver_calls.length) = some 2 := by decide!
  rw [hr] at hlen
  obtain ⟨h1, h2⟩ := searchPositionIK_solver_seeds sampleFailEnv (samplePlugin 1 []) 5
    samplePose [3] 3 [] none 0 [5] r rfl (by decide!) hr
  exact ⟨r, hr, by simpa using hlen, h1, h2⟩

end kdlc_kinematics_plugin
